import Mathlib

/-!
# anthros: laptop store and laptop server

A shallow embedding of `service/laptop_store.go` and `service/laptop_server.go`.

Conventions of the embedding:

* a Go `error` result is an `Option GoError` (`none` is `nil`); a Go `(value, error)` result
  is an `Except GoError value`;
* a `*T` that may be `nil` is an `Option T`, and the generated nil-safe getters of the `pb`
  package become functions on `Option T`;
* `uint64` values are natural numbers and every `uint64` operation that can wrap is taken
  modulo `2 ^ 64`;
* `float64` values are modelled by rationals: comparisons and arithmetic are exact, rounding,
  infinities and NaN are not represented;
* a method with a receiver that it mutates returns the new receiver next to its result;
* locks are not represented: every call runs alone.
-/

namespace Anthros

/-! ## Errors and status codes -/

/-- The gRPC status codes used by the server. -/
inductive Code where
  | OK
  | Canceled
  | Unknown
  | InvalidArgument
  | DeadlineExceeded
  | NotFound
  | AlreadyExists
  | Internal
  deriving DecidableEq, Repr

/-- Text of a status code, as printed inside an error message. -/
def Code.text : Code → String
  | .OK => "OK"
  | .Canceled => "Canceled"
  | .Unknown => "Unknown"
  | .InvalidArgument => "InvalidArgument"
  | .DeadlineExceeded => "DeadlineExceeded"
  | .NotFound => "NotFound"
  | .AlreadyExists => "AlreadyExists"
  | .Internal => "Internal"

/-- Go error values that reach the service package. -/
inductive GoError where
  /-- The package variable `ErrAlreadyExists = errors.New("Record already exists")`. -/
  | ErrAlreadyExists
  /-- The end-of-stream value `io.EOF`. -/
  | EOF
  /-- Made by `errors.New(msg)`, or any error of a collaborator (transport, copier, stores). -/
  | New (msg : String)
  /-- Made by `status.Error(code, msg)` or `status.Errorf(code, format, ...)`. -/
  | status (code : Code) (msg : String)
  deriving DecidableEq, Repr

/-- The `Error()` text of an error value, which is what `%v` prints. -/
def GoError.Error : GoError → String
  | .ErrAlreadyExists => "Record already exists"
  | .EOF => "EOF"
  | .New msg => msg
  | .status code msg => "rpc error: code = " ++ code.text ++ " desc = " ++ msg

/-- The status code a gRPC handler's result carries on the wire: `OK` for `nil`, the code of a
status error, and `Unknown` for an error that is not a status. -/
def statusCode : Option GoError → Code
  | none => .OK
  | some (.status code _) => code
  | some _ => .Unknown

/-- `logError` prints the error and returns it unchanged. -/
def logError (err : GoError) : GoError := err

/-! ## Contexts -/

/-- The two non-nil values of `ctx.Err()`. -/
inductive CtxErr where
  | Canceled
  | DeadlineExceeded
  deriving DecidableEq, Repr

/-- A context, seen through `ctx.Err()`: `ctx n` is what the `n`-th call of `ctx.Err()` made
during the handler returns (`none` is `nil`). -/
abbrev Context := Nat → Option CtxErr

/-- `contextError` of the server: maps the value of one `ctx.Err()` call to a status error. -/
def contextError (ctxErr : Option CtxErr) : Option GoError :=
  match ctxErr with
  | some .Canceled => some (logError (.status .Canceled "Request is cancelled"))
  | some .DeadlineExceeded => some (logError (.status .DeadlineExceeded "Deadline is exceeded"))
  | none => none

/-! ## The `pb` messages used by the store and the server -/

/-- Rational stand-in for `float64`. -/
abbrev Float64 := ℚ

/-- `pb.Memory_Unit`. `UNKNOWN` is the zero value, which is also what `GetUnit` returns on a
nil memory. -/
inductive Memory_Unit where
  | UNKNOWN
  | BIT
  | BYTE
  | KILOBYTE
  | MEGABYTE
  | GIGABYTE
  | TERABYTE
  deriving DecidableEq, Repr

/-- `pb.Memory`: `Value` is a `uint64`. -/
structure Memory where
  Value : Nat
  Unit : Memory_Unit
  deriving DecidableEq, Repr

/-- `pb.CPU`: `NumberCores` is a `uint32`. -/
structure CPU where
  Brand : String
  Name : String
  NumberCores : Nat
  MinGhz : Float64
  MaxGhz : Float64
  deriving DecidableEq

/-- `pb.GPU`. -/
structure GPU where
  Brand : String
  Name : String
  MinGhz : Float64
  MaxGhz : Float64
  deriving DecidableEq

/-- `pb.Storage`: the driver is kept as its enum number. -/
structure Storage where
  Driver : Nat
  Memory : Option Memory
  deriving DecidableEq

/-- `pb.Laptop`, with the fields the sample generator fills; screen, keyboard, weight and
timestamp are plain data that no function of the service reads and are left out. -/
structure Laptop where
  Id : String
  Brand : String
  Name : String
  Cpu : Option CPU
  Ram : Option Memory
  Gpus : List GPU
  Storages : List Storage
  PriceUsd : Float64
  ReleaseYear : Nat
  deriving DecidableEq

/-- `pb.Filter`. The functions below receive a non-nil filter. -/
structure Filter where
  MaxPriceUsd : Float64
  MinCpuCores : Nat
  MinCpuGhz : Float64
  MinRam : Option Memory
  deriving DecidableEq

/-- `(*pb.Memory).GetValue`, nil-safe. -/
def Memory.GetValue : Option Memory → Nat
  | none => 0
  | some m => m.Value

/-- `(*pb.Memory).GetUnit`, nil-safe. -/
def Memory.GetUnit : Option Memory → Memory_Unit
  | none => .UNKNOWN
  | some m => m.Unit

/-- `(*pb.CPU).GetNumberCores`, nil-safe. -/
def CPU.GetNumberCores : Option CPU → Nat
  | none => 0
  | some c => c.NumberCores

/-- `(*pb.CPU).GetMinGhz`, nil-safe. -/
def CPU.GetMinGhz : Option CPU → Float64
  | none => 0
  | some c => c.MinGhz

/-! ## `laptop_store.go` -/

/-- `toBit`: the size of a memory in bits, computed in `uint64`. -/
def toBit (memory : Option Memory) : Nat :=
  let value := Memory.GetValue memory
  match Memory.GetUnit memory with
  | .BIT => value
  | .BYTE => (value <<< 3) % 2 ^ 64
  | .KILOBYTE => (value <<< 13) % 2 ^ 64
  | .MEGABYTE => (value <<< 23) % 2 ^ 64
  | .GIGABYTE => (value <<< 33) % 2 ^ 64
  | .TERABYTE => (value <<< 43) % 2 ^ 64
  | .UNKNOWN => 0

/-- `isQualified`: the search predicate. -/
def isQualified (filter : Filter) (laptop : Laptop) : Bool :=
  if laptop.PriceUsd > filter.MaxPriceUsd then false
  else if CPU.GetNumberCores laptop.Cpu < filter.MinCpuCores then false
  else if CPU.GetMinGhz laptop.Cpu < filter.MinCpuGhz then false
  else if toBit laptop.Ram < toBit filter.MinRam then false
  else true

/-- `deepCopy`: `copier.Copy` into a fresh laptop. Between two values of the same struct type
the copy does not fail, and the result has the fields of its argument. -/
def deepCopy (laptop : Laptop) : Except GoError Laptop :=
  .ok laptop

/-- A Go `map[string]*pb.Laptop`-like map: a list of entries with the iteration order of
`range`, which is any order. -/
abbrev GoMap (α : Type) := List (String × α)

/-- `m[k]`: the stored value, `none` when the key is absent. -/
def GoMap.get {α : Type} (m : GoMap α) (k : String) : Option α :=
  match m with
  | [] => none
  | (k', v) :: rest => if k' = k then some v else GoMap.get rest k

/-- `m[k] = v`: replaces the value of an existing key in place, adds a new entry otherwise. -/
def GoMap.set {α : Type} (m : GoMap α) (k : String) (v : α) : GoMap α :=
  match m with
  | [] => [(k, v)]
  | (k', v') :: rest => if k' = k then (k, v) :: rest else (k', v') :: GoMap.set rest k v

/-- `InMemoryLaptopStore`: the map from id to laptop. -/
structure InMemoryLaptopStore where
  data : GoMap Laptop
  deriving DecidableEq

/-- `NewInMemoryLaptopStore`. -/
def NewInMemoryLaptopStore : InMemoryLaptopStore :=
  { data := [] }

namespace InMemoryLaptopStore

/-- `Save`: refuses an id that is present, stores a copy otherwise. -/
def Save (store : InMemoryLaptopStore) (laptop : Laptop) :
    Option GoError × InMemoryLaptopStore :=
  if (store.data.get laptop.Id).isSome then (some .ErrAlreadyExists, store)
  else
    match deepCopy laptop with
    | .error err => (some err, store)
    | .ok other => (none, { data := store.data.set other.Id other })

/-- `Find`: a copy of the stored laptop, or `nil, nil` (here `.ok none`) when absent. -/
def Find (store : InMemoryLaptopStore) (id : String) : Except GoError (Option Laptop) :=
  match store.data.get id with
  | none => .ok none
  | some laptop =>
    match deepCopy laptop with
    | .error err => .error err
    | .ok other => .ok (some other)

/-- The loop of `Search` over the entries still to visit. `polls` counts the `ctx.Err()` calls
made so far, `s` is the state the callback `found` works on. The condition
`ctx.Err() == context.Canceled || ctx.Err() == context.DeadlineExceeded` calls `ctx.Err()`
a second time only when the first comparison fails. -/
def Search.loop {σ : Type} (ctx : Context) (filter : Filter)
    (found : σ → Laptop → Option GoError × σ) :
    GoMap Laptop → Nat → σ → Option GoError × σ
  | [], _, s => (none, s)
  | (_, laptop) :: rest, polls, s =>
    if ctx polls = some .Canceled then (some (.New "Context is cancelled"), s)
    else if ctx (polls + 1) = some .DeadlineExceeded then (some (.New "Context is cancelled"), s)
    else if isQualified filter laptop then
      match deepCopy laptop with
      | .error err => (some err, s)
      | .ok other =>
        match found s other with
        | (some err, s') => (some err, s')
        | (none, s') => Search.loop ctx filter found rest (polls + 2) s'
    else Search.loop ctx filter found rest (polls + 2) s

/-- `Search`: hands every qualified laptop to `found`, one by one. -/
def Search {σ : Type} (store : InMemoryLaptopStore) (ctx : Context) (filter : Filter)
    (found : σ → Laptop → Option GoError × σ) (s : σ) : Option GoError × σ :=
  Search.loop ctx filter found store.data 0 s

end InMemoryLaptopStore

/-! ## Collaborators of the server -/

/-- A byte string (`[]byte`, and the contents of a `bytes.Buffer`). -/
abbrev Bytes := List UInt8

/-- The `ImageStore` interface, as far as one handler call sees it: `Save` is called with the
laptop id, the image type and the image data, and returns the image id or an error. -/
structure ImageStore where
  Save : String → String → Bytes → Except GoError String

/-- The `Rating` a rating store returns: `Count` ratings with total `Sum`. -/
structure Rating where
  Count : Nat
  Sum : Float64
  deriving DecidableEq

/-- The `RatingStore` interface: a store in state `state` whose `Add` returns the updated
rating of the laptop, or an error, together with the store's next state. -/
structure RatingStore (ρ : Type) where
  state : ρ
  Add : ρ → String → Float64 → Except GoError Rating × ρ

/-- Modelled from the spec: the in-memory rating store (`rating_store.go`) is not among the
sources. The spec describes it as maintaining "a cumulative (count, sum) per record id",
"created lazily on first contribution; never deleted", with the single operation
`Add(id, score) → updated aggregate`. -/
def InMemoryRatingStore.Add (data : GoMap Rating) (laptopID : String) (score : Float64) :
    Except GoError Rating × GoMap Rating :=
  let rating : Rating :=
    match data.get laptopID with
    | none => { Count := 1, Sum := score }
    | some r => { Count := r.Count + 1, Sum := r.Sum + score }
  (.ok rating, data.set laptopID rating)

/-- Modelled from the spec: a rating store that holds the aggregates `data`. -/
def InMemoryRatingStore (data : GoMap Rating) : RatingStore (GoMap Rating) :=
  { state := data, Add := InMemoryRatingStore.Add }

/-- Modelled from the spec: the rating store with no aggregate yet. -/
def NewInMemoryRatingStore : RatingStore (GoMap Rating) :=
  InMemoryRatingStore []

/-- The `uuid` package, as far as `CreateLaptop` uses it: `Parse id` is the error of
`uuid.Parse(id)` (`none` when the id is well formed) and `NewRandom` is the outcome of the
call of `uuid.NewRandom()`, already converted to a string. -/
structure UUID where
  Parse : String → Option GoError
  NewRandom : Except GoError String

/-! ## Streams -/

/-- What a handler does to the outside world, in the order it does it. -/
inductive Event (Req Res : Type) where
  /-- One call of `stream.Recv()`, with what it returned. -/
  | Recv (r : Except GoError Req)
  /-- One call of `stream.Send(res)`. -/
  | Send (res : Res)
  /-- One call of `stream.SendAndClose(res)`. -/
  | SendAndClose (res : Res)
  /-- One call of `imageStore.Save(laptopID, imageType, imageData)`. -/
  | ImageSave (laptopID imageType : String) (imageData : Bytes)
  /-- One call of `ratingStore.Add(laptopID, score)`. -/
  | RatingAdd (laptopID : String) (score : Float64)

/-- Whether an event is a call of `stream.Send`. -/
def Event.isSend {Req Res : Type} : Event Req Res → Bool
  | .Send _ => true
  | _ => false

/-- Whether an event is a call of `stream.Recv`. -/
def Event.isRecv {Req Res : Type} : Event Req Res → Bool
  | .Recv _ => true
  | _ => false

/-- Whether an event is a call of `imageStore.Save`. -/
def Event.isImageSave {Req Res : Type} : Event Req Res → Bool
  | .ImageSave _ _ _ => true
  | _ => false

/-- The server side of a gRPC stream: its context, what the successive calls of `Recv` return
(`io.EOF` once the list is used up), and what the `n`-th call of `Send` returns. -/
structure ServerStream (Req : Type) where
  ctx : Context
  inbound : List (Except GoError Req)
  sendErr : Nat → Option GoError

/-! ## `laptop_server.go` -/

/-- `maxImageSize = 1 << 20`. -/
def maxImageSize : Nat := 1 <<< 20

/-- `LaptopServer`: the laptop store, the image store and the rating store. -/
structure LaptopServer (ρ : Type) where
  laptopStore : InMemoryLaptopStore
  imageStore : ImageStore
  ratingStore : RatingStore ρ

/-- `pb.CreateLaptopResponse`. -/
structure CreateLaptopResponse where
  Id : String
  deriving DecidableEq

/-- `pb.SearchLaptopResponse`. -/
structure SearchLaptopResponse where
  Laptop : Laptop
  deriving DecidableEq

/-- `pb.UploadImageRequest`: its `Data` is either an image info or a chunk. A request whose
`Data` is unset answers every getter like `ChunkData []`. -/
inductive UploadImageRequest where
  | Info (LaptopId ImageType : String)
  | ChunkData (chunk : Bytes)
  deriving DecidableEq

/-- `req.GetInfo().GetLaptopId()`, nil-safe. -/
def UploadImageRequest.GetLaptopId : Option UploadImageRequest → String
  | some (.Info laptopID _) => laptopID
  | _ => ""

/-- `req.GetInfo().GetImageType()`, nil-safe. -/
def UploadImageRequest.GetImageType : Option UploadImageRequest → String
  | some (.Info _ imageType) => imageType
  | _ => ""

/-- `req.GetChunkData()`. -/
def UploadImageRequest.GetChunkData : UploadImageRequest → Bytes
  | .ChunkData chunk => chunk
  | _ => []

/-- `pb.UploadImageResponse`: `Size` is a `uint32`. -/
structure UploadImageResponse where
  Id : String
  Size : Nat
  deriving DecidableEq

/-- `pb.RateLaptopRequest`. -/
structure RateLaptopRequest where
  LaptopId : String
  Score : Float64
  deriving DecidableEq

/-- `pb.RateLaptopResponse`: `RatedCount` is a `uint32`. -/
structure RateLaptopResponse where
  LaptopId : String
  RatedCount : Nat
  AverageScore : Float64
  deriving DecidableEq

namespace LaptopServer

/-- `CreateLaptop`: the unary RPC, on the laptop of the request. Returns the response or the
error, and the server afterwards. `len(laptop.Id) > 0` is the test that the id is not empty. -/
def CreateLaptop {ρ : Type} (server : LaptopServer ρ) (uuid : UUID) (laptop : Laptop) :
    Except GoError CreateLaptopResponse × LaptopServer ρ :=
  let checked : Except GoError Laptop :=
    if laptop.Id.length > 0 then
      match uuid.Parse laptop.Id with
      | some err =>
        .error (.status .InvalidArgument ("Laptop ID is not a valid UUID: " ++ err.Error))
      | none => .ok laptop
    else
      match uuid.NewRandom with
      | .error err =>
        .error (.status .Internal ("Cannot generate a new laptop ID: " ++ err.Error))
      | .ok id => .ok { laptop with Id := id }
  match checked with
  | .error err => (.error err, server)
  | .ok laptop =>
    match server.laptopStore.Save laptop with
    | (some err, store) =>
      let code := if err = .ErrAlreadyExists then Code.AlreadyExists else Code.Internal
      (.error (.status code ("Cannot save laptop to the store: " ++ err.Error)),
        { server with laptopStore := store })
    | (none, store) => (.ok { Id := laptop.Id }, { server with laptopStore := store })

/-- The callback `SearchLaptop` passes to `Search`: sends the laptop on the stream. Its state is
the list of events so far; the outcome of the send is that of the stream's next `Send`. -/
def SearchLaptop.found (stream : ServerStream Unit)
    (trace : List (Event Unit SearchLaptopResponse)) (laptop : Laptop) :
    Option GoError × List (Event Unit SearchLaptopResponse) :=
  let res : SearchLaptopResponse := { Laptop := laptop }
  match stream.sendErr (trace.countP Event.isSend) with
  | some err => (some err, trace ++ [.Send res])
  | none => (none, trace ++ [.Send res])

/-- `SearchLaptop`: the server-streaming RPC, on the filter of the request. Returns the error
and the events in order. -/
def SearchLaptop {ρ : Type} (server : LaptopServer ρ) (filter : Filter)
    (stream : ServerStream Unit) : Option GoError × List (Event Unit SearchLaptopResponse) :=
  match server.laptopStore.Search stream.ctx filter (SearchLaptop.found stream) [] with
  | (some err, trace) => (some (.status .Internal ("Unexpected error: " ++ err.Error)), trace)
  | (none, trace) => (none, trace)

/-- The chunk loop of `UploadImage` over what `Recv` has still to return. `polls` counts the
`ctx.Err()` calls so far; `imageData` and `imageSize` are the loop's variables. Returns the
error that ends the handler or, after the `break`, the data and size, with the events of the
loop. `imageSize` is a Go `int`: it is at most `maxImageSize` before a chunk's length is
added, so the sum does not wrap. `imageData.Write` returns no error. -/
def UploadImage.loop (ctx : Context) :
    List (Except GoError UploadImageRequest) → Nat → Bytes → Nat →
    Except GoError (Bytes × Nat) × List (Event UploadImageRequest UploadImageResponse)
  | [], polls, imageData, imageSize =>
    match contextError (ctx polls) with
    | some err => (.error err, [])
    | none => (.ok (imageData, imageSize), [.Recv (.error .EOF)])
  | r :: rest, polls, imageData, imageSize =>
    match contextError (ctx polls) with
    | some err => (.error err, [])
    | none =>
      match r with
      | .error err =>
        if err = .EOF then (.ok (imageData, imageSize), [.Recv r])
        else
          (.error (logError (.status .Unknown ("Couldn't receive chunk data: " ++ err.Error))),
            [.Recv r])
      | .ok req =>
        let chunk := req.GetChunkData
        let size := chunk.length
        let imageSize := imageSize + size
        if imageSize > maxImageSize then
          (.error (logError (.status .InvalidArgument
              ("Image is too large: " ++ toString imageSize ++ " > " ++ toString maxImageSize))),
            [.Recv r])
        else
          let imageData := imageData ++ chunk
          match UploadImage.loop ctx rest (polls + 1) imageData imageSize with
          | (result, events) => (result, .Recv r :: events)

/-- `UploadImage`: the client-streaming RPC. Returns the error and the events in order. An
error of the first `Recv` is only logged, and the request is then nil. -/
def UploadImage {ρ : Type} (server : LaptopServer ρ) (stream : ServerStream UploadImageRequest) :
    Option GoError × List (Event UploadImageRequest UploadImageResponse) :=
  let first : Except GoError UploadImageRequest := stream.inbound.headD (.error .EOF)
  let req : Option UploadImageRequest :=
    match first with
    | .ok req => some req
    | .error _ => none
  let laptopID := UploadImageRequest.GetLaptopId req
  let imageType := UploadImageRequest.GetImageType req
  match server.laptopStore.Find laptopID with
  | .error err =>
    (some (logError (.status .Internal ("Cannot find laptop: " ++ err.Error))), [.Recv first])
  | .ok none =>
    (some (logError (.status .InvalidArgument ("Laptop " ++ laptopID ++ " doesn't exist"))),
      [.Recv first])
  | .ok (some _) =>
    match UploadImage.loop stream.ctx stream.inbound.tail 0 [] 0 with
    | (.error err, events) => (some err, .Recv first :: events)
    | (.ok (imageData, imageSize), events) =>
      match server.imageStore.Save laptopID imageType imageData with
      | .error err =>
        (some (logError (.status .Internal ("Cannot write chunk data: " ++ err.Error))),
          .Recv first :: events ++ [.ImageSave laptopID imageType imageData])
      | .ok imageID =>
        let res : UploadImageResponse := { Id := imageID, Size := imageSize % 2 ^ 32 }
        match stream.sendErr 0 with
        | some err =>
          (some (logError (.status .Unknown ("Cannot save image in the store: " ++ err.Error))),
            .Recv first :: events ++ [.ImageSave laptopID imageType imageData, .SendAndClose res])
        | none =>
          (none,
            .Recv first :: events ++ [.ImageSave laptopID imageType imageData, .SendAndClose res])

/-- The loop of `RateLaptop` over what `Recv` has still to return. `polls` counts the
`ctx.Err()` calls and `sends` the `Send` calls so far; `ratings` is the state of the rating
store. Returns the error, the events of the loop and the rating store's state at the end. -/
def RateLaptop.loop {ρ : Type} (laptopStore : InMemoryLaptopStore)
    (Add : ρ → String → Float64 → Except GoError Rating × ρ) (ctx : Context)
    (sendErr : Nat → Option GoError) :
    List (Except GoError RateLaptopRequest) → Nat → Nat → ρ →
    Option GoError × List (Event RateLaptopRequest RateLaptopResponse) × ρ
  | [], polls, _, ratings =>
    match contextError (ctx polls) with
    | some err => (some err, [], ratings)
    | none => (none, [.Recv (.error .EOF)], ratings)
  | r :: rest, polls, sends, ratings =>
    match contextError (ctx polls) with
    | some err => (some err, [], ratings)
    | none =>
      match r with
      | .error err =>
        if err = .EOF then (none, [.Recv r], ratings)
        else
          (some (logError (.status .Unknown ("Cannot receive stream request: " ++ err.Error))),
            [.Recv r], ratings)
      | .ok req =>
        let laptopID := req.LaptopId
        let score := req.Score
        match laptopStore.Find laptopID with
        | .error err =>
          (some (logError (.status .Unknown ("Cannot find laptop: " ++ err.Error))),
            [.Recv r], ratings)
        | .ok none =>
          (some (logError (.status .NotFound ("LaptopID " ++ laptopID ++ " is not found"))),
            [.Recv r], ratings)
        | .ok (some _) =>
          match Add ratings laptopID score with
          | (.error err, ratings) =>
            (some (logError (.status .Internal
                ("Cannot add rating to the store: " ++ err.Error))),
              [.Recv r, .RatingAdd laptopID score], ratings)
          | (.ok rating, ratings) =>
            let res : RateLaptopResponse :=
              { LaptopId := laptopID,
                RatedCount := rating.Count,
                AverageScore := rating.Sum / (rating.Count : Float64) }
            match sendErr sends with
            | some err =>
              (some (logError (.status .Unknown
                  ("Cannot send stream response: " ++ err.Error))),
                [.Recv r, .RatingAdd laptopID score, .Send res], ratings)
            | none =>
              match RateLaptop.loop laptopStore Add ctx sendErr rest (polls + 1) (sends + 1)
                  ratings with
              | (result, events, ratings) =>
                (result, .Recv r :: .RatingAdd laptopID score :: .Send res :: events, ratings)

/-- `RateLaptop`: the bidirectional-streaming RPC. Returns the error, the events in order and
the server afterwards. -/
def RateLaptop {ρ : Type} (server : LaptopServer ρ) (stream : ServerStream RateLaptopRequest) :
    Option GoError × List (Event RateLaptopRequest RateLaptopResponse) × LaptopServer ρ :=
  match RateLaptop.loop server.laptopStore server.ratingStore.Add stream.ctx stream.sendErr
      stream.inbound 0 0 server.ratingStore.state with
  | (result, events, ratings) =>
    (result, events, { server with ratingStore := { server.ratingStore with state := ratings } })

end LaptopServer

/-! ## Observers and reference definitions used in the statements -/

/-- A callback that behaves like `found` and also notes the laptop of each call, in call
order. -/
def recording {σ : Type} (found : σ → Laptop → Option GoError × σ) :
    σ × List Laptop → Laptop → Option GoError × (σ × List Laptop) :=
  fun s laptop => ((found s.1 laptop).1, ((found s.1 laptop).2, s.2 ++ [laptop]))

/-- The store after `Save` has been called on each laptop of a list in turn, whatever each
call returned. -/
def saveAll (store : InMemoryLaptopStore) : List Laptop → InMemoryLaptopStore
  | [] => store
  | laptop :: rest => saveAll (store.Save laptop).2 rest

/-- The number of bits in one unit of memory, as the specification lists them. -/
def Spec.unitFactor : Memory_Unit → Nat
  | .UNKNOWN => 0
  | .BIT => 1
  | .BYTE => 2 ^ 3
  | .KILOBYTE => 2 ^ 13
  | .MEGABYTE => 2 ^ 23
  | .GIGABYTE => 2 ^ 33
  | .TERABYTE => 2 ^ 43

/-! ## Example data -/

/-- A CPU with four cores at 2.5 GHz. -/
def exampleCPU : CPU :=
  { Brand := "Intel", Name := "Core i7", NumberCores := 4, MinGhz := 5 / 2, MaxGhz := 4 }

/-- A laptop with id `A` and 16 gigabytes of memory. -/
def laptopA : Laptop :=
  { Id := "A", Brand := "Dell", Name := "XPS", Cpu := some exampleCPU,
    Ram := some { Value := 16, Unit := .GIGABYTE }, Gpus := [], Storages := [],
    PriceUsd := 1500, ReleaseYear := 2019 }

/-- A laptop with id `B`, cheaper and smaller than `laptopA`. -/
def laptopB : Laptop :=
  { Id := "B", Brand := "Lenovo", Name := "Thinkpad", Cpu := some exampleCPU,
    Ram := some { Value := 4, Unit := .GIGABYTE }, Gpus := [], Storages := [],
    PriceUsd := 900, ReleaseYear := 2018 }

/-- A laptop whose memory is `2 ^ 21` terabytes, that is `2 ^ 64` bits. -/
def laptopHuge : Laptop :=
  { Id := "H", Brand := "Dell", Name := "XPS", Cpu := some exampleCPU,
    Ram := some { Value := 2 ^ 21, Unit := .TERABYTE }, Gpus := [], Storages := [],
    PriceUsd := 1500, ReleaseYear := 2019 }

/-- A filter that asks for at most 2000 USD, two cores, 2 GHz and one bit of memory. -/
def filterOneBit : Filter :=
  { MaxPriceUsd := 2000, MinCpuCores := 2, MinCpuGhz := 2,
    MinRam := some { Value := 1, Unit := .BIT } }

/-- A filter that asks for at most 2000 USD, two cores, 2 GHz and 8 gigabytes of memory. -/
def filter8GB : Filter :=
  { MaxPriceUsd := 2000, MinCpuCores := 2, MinCpuGhz := 2,
    MinRam := some { Value := 8, Unit := .GIGABYTE } }

/-- A store that holds `laptopA` and `laptopB`. -/
def storeAB : InMemoryLaptopStore :=
  { data := [("A", laptopA), ("B", laptopB)] }

/-- A context that is never cancelled. -/
def background : Context := fun _ => none

/-- The inbound messages that carry the chunks of a list, in order. -/
def chunkMessages (chunks : List Bytes) : List (Except GoError UploadImageRequest) :=
  chunks.map (fun chunk => .ok (.ChunkData chunk))

/-- The events of receiving the chunks of a list, in order. -/
def chunkEvents (chunks : List Bytes) :
    List (Event UploadImageRequest UploadImageResponse) :=
  chunks.map (fun chunk => .Recv (.ok (.ChunkData chunk)))

/-- The sum of the lengths of the chunks of a list. -/
def totalSize (chunks : List Bytes) : Nat :=
  (chunks.map List.length).sum

/-- An image store whose `Save` always succeeds with the id `image-1`. -/
def exampleImageStore : ImageStore :=
  { Save := fun _ _ _ => .ok "image-1" }

/-- A server whose laptop store holds `laptopA` and `laptopB` and whose rating store is
empty. -/
def serverAB : LaptopServer (GoMap Rating) :=
  { laptopStore := storeAB, imageStore := exampleImageStore,
    ratingStore := NewInMemoryRatingStore }

/-- An upload for laptop `A` of two chunks that total exactly 1,048,576 bytes. -/
def uploadOneMiB : ServerStream UploadImageRequest :=
  { ctx := background,
    inbound := .ok (.Info "A" ".jpg") :: chunkMessages [List.replicate 1048570 0, [1, 2, 3, 4, 5, 6]],
    sendErr := fun _ => none }

/-- An upload for laptop `A` of three chunks, the second of which takes the total to
1,048,577 bytes. -/
def uploadTooLarge : ServerStream UploadImageRequest :=
  { ctx := background,
    inbound := .ok (.Info "A" ".jpg") :: chunkMessages [List.replicate 1048570 0, [1, 2, 3, 4, 5, 6, 7], [8]],
    sendErr := fun _ => none }

/-- An upload for the id `Z`, which `storeAB` does not hold, followed by one chunk. -/
def uploadUnknown : ServerStream UploadImageRequest :=
  { ctx := background,
    inbound := [.ok (.Info "Z" ".jpg"), .ok (.ChunkData [1, 2, 3])],
    sendErr := fun _ => none }

/-- A laptop whose id is a well-formed UUID. -/
def laptopU : Laptop :=
  { laptopA with Id := "123e4567-e89b-12d3-a456-426614174000" }

/-- A second laptop that carries the id of `laptopU`. -/
def laptopU2 : Laptop :=
  { laptopB with Id := "123e4567-e89b-12d3-a456-426614174000" }

/-- A laptop whose id is not empty and not a UUID. -/
def laptopBadId : Laptop :=
  { laptopA with Id := "not-a-uuid" }

/-- A server whose laptop store holds `laptopU` only. -/
def serverU : LaptopServer (GoMap Rating) :=
  { laptopStore := { data := [("123e4567-e89b-12d3-a456-426614174000", laptopU)] },
    imageStore := exampleImageStore,
    ratingStore := NewInMemoryRatingStore }

/-- A stand-in for the `uuid` package that accepts exactly the ids of 36 characters. -/
def exampleUUID : UUID :=
  { Parse := fun id =>
      if id.length = 36 then none
      else some (.New ("invalid UUID length: " ++ toString id.length)),
    NewRandom := .ok "00000000-0000-4000-8000-000000000000" }

/-- A search stream whose context is cancelled from the start. -/
def searchCancelled : ServerStream Unit :=
  { ctx := fun _ => some .Canceled, inbound := [], sendErr := fun _ => none }

/-- A search stream whose deadline has passed from the start. -/
def searchDeadline : ServerStream Unit :=
  { ctx := fun _ => some .DeadlineExceeded, inbound := [], sendErr := fun _ => none }

/-- A search stream that is never cancelled and on which every `Send` fails. -/
def searchSendFails : ServerStream Unit :=
  { ctx := background, inbound := [], sendErr := fun _ => some (.New "transport is closing") }

/-- A search stream that is never cancelled and on which every `Send` succeeds. -/
def searchOpen : ServerStream Unit :=
  { ctx := background, inbound := [], sendErr := fun _ => none }

/-- The scores that the requests of a list give to one laptop id, in order. -/
def Spec.scoresFor (laptopID : String) (requests : List RateLaptopRequest) : List Float64 :=
  (requests.filter (fun req => req.LaptopId = laptopID)).map (fun req => req.Score)

/-- The response the specification asks for a request that comes after the requests `seen`:
the request's id, the count of the scores submitted so far for that id, this one included, and
their average. -/
def Spec.rateResponse (seen : List RateLaptopRequest) (req : RateLaptopRequest) :
    RateLaptopResponse :=
  { LaptopId := req.LaptopId,
    RatedCount := (Spec.scoresFor req.LaptopId (seen ++ [req])).length,
    AverageScore := (Spec.scoresFor req.LaptopId (seen ++ [req])).sum /
      ((Spec.scoresFor req.LaptopId (seen ++ [req])).length : Float64) }

/-- The events the specification asks of `RateLaptop` for a list of requests that come after
the requests `seen`: each request is received, rated and answered before the next. -/
def Spec.rateEvents (seen : List RateLaptopRequest) :
    List RateLaptopRequest → List (Event RateLaptopRequest RateLaptopResponse)
  | [] => []
  | req :: rest =>
    .Recv (.ok req) :: .RatingAdd req.LaptopId req.Score :: .Send (Spec.rateResponse seen req) ::
      Spec.rateEvents (seen ++ [req]) rest

/-- The aggregates of a rating store are those of the requests `seen`: an id has an aggregate
exactly when a request rated it, and the aggregate counts and sums its scores. -/
def Spec.Tracks (ratings : GoMap Rating) (seen : List RateLaptopRequest) : Prop :=
  ∀ laptopID : String,
    ratings.get laptopID =
      if Spec.scoresFor laptopID seen = [] then none
      else some { Count := (Spec.scoresFor laptopID seen).length,
                  Sum := (Spec.scoresFor laptopID seen).sum }

/-- A rating stream with the requests (A, 8) and (A, 4). -/
def rateTwice : ServerStream RateLaptopRequest :=
  { ctx := background,
    inbound := [.ok { LaptopId := "A", Score := 8 }, .ok { LaptopId := "A", Score := 4 }],
    sendErr := fun _ => none }

/-- A rating stream with the requests (A, 8), (Z, 5) and (B, 3), where `storeAB` holds no
laptop `Z`. -/
def rateUnknown : ServerStream RateLaptopRequest :=
  { ctx := background,
    inbound := [.ok { LaptopId := "A", Score := 8 }, .ok { LaptopId := "Z", Score := 5 },
      .ok { LaptopId := "B", Score := 3 }],
    sendErr := fun _ => none }

/-- The response an event sends, if the event is a `Send`. -/
def Event.response? {Req Res : Type} : Event Req Res → Option Res
  | .Send res => some res
  | _ => none

/-- The responses the specification asks for a list of requests that come after the requests
`seen`, in request order. -/
def Spec.rateResponses (seen : List RateLaptopRequest) :
    List RateLaptopRequest → List RateLaptopResponse
  | [] => []
  | req :: rest => Spec.rateResponse seen req :: Spec.rateResponses (seen ++ [req]) rest

/-- The request an event receives, if the event is a `Recv` that returned a request. -/
def Event.request? {Req Res : Type} : Event Req Res → Option Req
  | .Recv (.ok req) => some req
  | _ => none

/-- Whether the image store has stored a blob in the course of the events of a call: some
call of `imageStore.Save` among them returned an image id. -/
def blobPersisted {Req Res : Type} (imageStore : ImageStore) (events : List (Event Req Res)) :
    Bool :=
  events.any fun event =>
    match event with
    | .ImageSave laptopID imageType imageData =>
      match imageStore.Save laptopID imageType imageData with
      | .ok _ => true
      | .error _ => false
    | _ => false

/-- An upload for laptop `A` of one chunk, on a stream whose `SendAndClose` fails. -/
def uploadSendFails : ServerStream UploadImageRequest :=
  { ctx := background,
    inbound := [.ok (.Info "A" ".jpg"), .ok (.ChunkData [1, 2, 3])],
    sendErr := fun _ => some (.New "transport is closing") }

/-- The state of a rating store after `Add` has been called for each request of a list, in
order. -/
def Spec.ratingsAfter {ρ : Type} (Add : ρ → String → Float64 → Except GoError Rating × ρ)
    (ratings : ρ) : List RateLaptopRequest → ρ
  | [] => ratings
  | req :: rest => Spec.ratingsAfter Add (Add ratings req.LaptopId req.Score).2 rest

/-- The response to a request for which the rating store returned `added`: the request's id
with the count and the average of the returned rating. -/
def Spec.responseOf (req : RateLaptopRequest) (added : Except GoError Rating) :
    RateLaptopResponse :=
  match added with
  | .ok rating =>
    { LaptopId := req.LaptopId, RatedCount := rating.Count,
      AverageScore := rating.Sum / (rating.Count : Float64) }
  | .error _ => { LaptopId := req.LaptopId, RatedCount := 0, AverageScore := 0 }

/-- The responses to a list of requests that are rated in order by a store that starts in the
state `ratings`. -/
def Spec.ratedResponses {ρ : Type} (Add : ρ → String → Float64 → Except GoError Rating × ρ)
    (ratings : ρ) : List RateLaptopRequest → List RateLaptopResponse
  | [] => []
  | req :: rest =>
    Spec.responseOf req (Add ratings req.LaptopId req.Score).1 ::
      Spec.ratedResponses Add (Add ratings req.LaptopId req.Score).2 rest

/-- The events of rating a list of requests in order with a store that starts in the state
`ratings`: each request is received, added to the store and answered before the next. -/
def Spec.ratedEvents {ρ : Type} (Add : ρ → String → Float64 → Except GoError Rating × ρ)
    (ratings : ρ) :
    List RateLaptopRequest → List (Event RateLaptopRequest RateLaptopResponse)
  | [] => []
  | req :: rest =>
    .Recv (.ok req) :: .RatingAdd req.LaptopId req.Score ::
      .Send (Spec.responseOf req (Add ratings req.LaptopId req.Score).1) ::
      Spec.ratedEvents Add (Add ratings req.LaptopId req.Score).2 rest

/-- The laptop ids for which an event list holds a call of `ratingStore.Add`. -/
def ratedIds {Req Res : Type} : List (Event Req Res) → List String
  | [] => []
  | .RatingAdd laptopID _ :: rest => laptopID :: ratedIds rest
  | _ :: rest => ratedIds rest

/-! ## The laptop store with explicit pointers

The definitions above treat a laptop as a value, which is all that the results of the
handlers depend on. Whether two `*pb.Laptop` share memory is not visible there. This section
embeds `deepCopy`, `Save` and `Find` once more over an explicit heap, in which a laptop object
holds its GPUs and storages as lists of pointers, as `[]*pb.GPU` and `[]*pb.Storage` do. The
`Cpu` and `Ram` pointers are kept by value: no statement below is about them. -/

namespace Pointers

/-- The address of an object in the heap. -/
abbrev Addr := Nat

/-- A `pb.Laptop` object in memory: the fields of `Laptop`, with `Gpus` and `Storages` as
slices of pointers. -/
structure LaptopObj where
  Id : String
  Brand : String
  Name : String
  Cpu : Option CPU
  Ram : Option Memory
  Gpus : List Addr
  Storages : List Addr
  PriceUsd : Float64
  ReleaseYear : Nat
  deriving DecidableEq

/-- The heap: the laptop, GPU and storage objects allocated so far; the address of an object
is its position. -/
structure Heap where
  laptops : List LaptopObj
  gpus : List GPU
  storages : List Storage
  deriving DecidableEq

/-- The heap with no object. -/
def Heap.empty : Heap :=
  { laptops := [], gpus := [], storages := [] }

/-- The zero value `pb.Laptop{}`. -/
def LaptopObj.zero : LaptopObj :=
  { Id := "", Brand := "", Name := "", Cpu := none, Ram := none, Gpus := [], Storages := [],
    PriceUsd := 0, ReleaseYear := 0 }

/-- Allocation of a laptop object, as `&pb.Laptop{...}` does: the new address and the heap
with the object. -/
def Heap.newLaptop (h : Heap) (obj : LaptopObj) : Addr × Heap :=
  (h.laptops.length, { h with laptops := h.laptops ++ [obj] })

/-- The laptop value behind a pointer: the object's fields with every GPU and storage pointer
followed. `none` for an address that holds no laptop. -/
def Heap.load (h : Heap) (p : Addr) : Option Laptop :=
  match h.laptops[p]? with
  | none => none
  | some obj =>
    some
      { Id := obj.Id, Brand := obj.Brand, Name := obj.Name, Cpu := obj.Cpu, Ram := obj.Ram,
        Gpus := obj.Gpus.filterMap (fun a => h.gpus[a]?),
        Storages := obj.Storages.filterMap (fun a => h.storages[a]?),
        PriceUsd := obj.PriceUsd, ReleaseYear := obj.ReleaseYear }

/-- Builds a laptop value in memory the way a caller does with composite literals: one new
object for each GPU and each storage, and a new laptop object that points to them. -/
def Heap.build (h : Heap) (laptop : Laptop) : Addr × Heap :=
  let gpuAddrs := (List.range laptop.Gpus.length).map (fun i => h.gpus.length + i)
  let storageAddrs := (List.range laptop.Storages.length).map (fun i => h.storages.length + i)
  let h : Heap :=
    { h with gpus := h.gpus ++ laptop.Gpus, storages := h.storages ++ laptop.Storages }
  h.newLaptop
    { Id := laptop.Id, Brand := laptop.Brand, Name := laptop.Name, Cpu := laptop.Cpu,
      Ram := laptop.Ram, Gpus := gpuAddrs, Storages := storageAddrs,
      PriceUsd := laptop.PriceUsd, ReleaseYear := laptop.ReleaseYear }

/-- The assignment `p.Name = name`. -/
def Heap.setName (h : Heap) (p : Addr) (name : String) : Heap :=
  match h.laptops[p]? with
  | none => h
  | some obj => { h with laptops := h.laptops.set p { obj with Name := name } }

/-- The assignment `p.Gpus[i].Name = name`. -/
def Heap.setGpuName (h : Heap) (p : Addr) (i : Nat) (name : String) : Heap :=
  match h.laptops[p]? with
  | none => h
  | some obj =>
    match obj.Gpus[i]? with
    | none => h
    | some a =>
      match h.gpus[a]? with
      | none => h
      | some gpu => { h with gpus := h.gpus.set a { gpu with Name := name } }

/-- The call `copier.Copy(toValue, fromValue)` of the `copier` library, without its deep-copy
option, between two `*pb.Laptop`: every field of the source is assigned to the destination.
A slice field is assigned as a slice, so that destination and source hold the same element
pointers afterwards. A source that holds no laptop is an error. -/
def copierCopy (h : Heap) (toValue fromValue : Addr) : Option GoError × Heap :=
  match h.laptops[fromValue]? with
  | none => (some (.New "copy from is invalid"), h)
  | some obj => (none, { h with laptops := h.laptops.set toValue obj })

/-- `deepCopy` over the heap: `other := &pb.Laptop{}`, then `copier.Copy(other, laptop)`. -/
def deepCopy (h : Heap) (laptop : Addr) : Except GoError Addr × Heap :=
  match h.newLaptop LaptopObj.zero with
  | (other, h) =>
    match copierCopy h other laptop with
    | (some err, h) => (.error (.New ("Cannot copy laptop data: " ++ err.Error)), h)
    | (none, h) => (.ok other, h)

/-- `InMemoryLaptopStore` over the heap: the map from id to `*pb.Laptop`. -/
structure InMemoryLaptopStore where
  data : GoMap Addr
  deriving DecidableEq

/-- `NewInMemoryLaptopStore` over the heap. -/
def NewInMemoryLaptopStore : InMemoryLaptopStore :=
  { data := [] }

/-- `Save` over the heap. A pointer that holds no laptop stands for nil, on which `laptop.Id`
panics; the panic is returned as an error. -/
def InMemoryLaptopStore.Save (h : Heap) (store : InMemoryLaptopStore) (laptop : Addr) :
    Option GoError × Heap × InMemoryLaptopStore :=
  match h.laptops[laptop]? with
  | none => (some (.New "invalid memory address or nil pointer dereference"), h, store)
  | some obj =>
    if (store.data.get obj.Id).isSome then (some .ErrAlreadyExists, h, store)
    else
      match deepCopy h laptop with
      | (.error err, h) => (some err, h, store)
      | (.ok other, h) =>
        match h.laptops[other]? with
        | none => (some (.New "invalid memory address or nil pointer dereference"), h, store)
        | some otherObj => (none, h, { data := store.data.set otherObj.Id other })

/-- `Find` over the heap: a pointer to a copy of the stored laptop, or nil. -/
def InMemoryLaptopStore.Find (h : Heap) (store : InMemoryLaptopStore) (id : String) :
    Except GoError (Option Addr) × Heap :=
  match store.data.get id with
  | none => (.ok none, h)
  | some stored =>
    match deepCopy h stored with
    | (.error err, h) => (.error err, h)
    | (.ok other, h) => (.ok (some other), h)

/-- A GPU named `RTX 2060`. -/
def exampleGPU : GPU :=
  { Brand := "NVIDIA", Name := "RTX 2060", MinGhz := 1, MaxGhz := 2 }

/-- A laptop with id `G` and one GPU. -/
def laptopG : Laptop :=
  { Id := "G", Brand := "Dell", Name := "XPS", Cpu := some exampleCPU,
    Ram := some { Value := 16, Unit := .GIGABYTE }, Gpus := [exampleGPU], Storages := [],
    PriceUsd := 1500, ReleaseYear := 2019 }

/-- The laptop `laptopG` built in an empty heap: its address is 0. -/
def heapG : Heap := (Heap.empty.build laptopG).2

/-- The heap and the store after `Save` of the laptop at address 0 into a new store. -/
def savedG : Heap × InMemoryLaptopStore :=
  (InMemoryLaptopStore.Save heapG NewInMemoryLaptopStore 0).2

/-- The heap after `r := Find("G")`; the pointer `r` it returned is the address 2. -/
def foundG : Heap := (InMemoryLaptopStore.Find savedG.1 savedG.2 "G").2

end Pointers

/-! ## Theorems -/

/-! ### Maps and the laptop store -/

theorem GoMap.get_set_self {α : Type} (m : GoMap α) (k : String) (v : α) :
    (m.set k v).get k = some v := by
  induction m with
  | nil => simp [GoMap.set, GoMap.get]
  | cons e rest ih =>
    obtain ⟨k', v'⟩ := e
    by_cases h : k' = k
    · simp [GoMap.set, GoMap.get, h]
    · simp [GoMap.set, GoMap.get, h, ih]

theorem GoMap.get_set_ne {α : Type} (m : GoMap α) (k k' : String) (v : α) (hne : k' ≠ k) :
    (m.set k v).get k' = m.get k' := by
  induction m with
  | nil => simp [GoMap.set, GoMap.get, Ne.symm hne]
  | cons e rest ih =>
    obtain ⟨k₁, v₁⟩ := e
    by_cases h : k₁ = k
    · subst h
      simp [GoMap.set, GoMap.get, Ne.symm hne]
    · by_cases h2 : k₁ = k'
      · subst h2
        simp [GoMap.set, GoMap.get, h]
      · simp [GoMap.set, GoMap.get, h, h2, ih]

theorem InMemoryLaptopStore.Find_eq (store : InMemoryLaptopStore) (id : String) :
    store.Find id = .ok (store.data.get id) := by
  unfold InMemoryLaptopStore.Find
  cases store.data.get id <;> simp [deepCopy]

theorem InMemoryLaptopStore.Save_of_present (store : InMemoryLaptopStore) (laptop : Laptop)
    (h : (store.data.get laptop.Id).isSome = true) :
    store.Save laptop = (some .ErrAlreadyExists, store) := by
  simp [InMemoryLaptopStore.Save, h]

theorem InMemoryLaptopStore.Save_of_absent (store : InMemoryLaptopStore) (laptop : Laptop)
    (h : store.data.get laptop.Id = none) :
    store.Save laptop = (none, { data := store.data.set laptop.Id laptop }) := by
  simp [InMemoryLaptopStore.Save, h, deepCopy]

theorem InMemoryLaptopStore.get_Save_ne (store : InMemoryLaptopStore) (laptop : Laptop)
    (id : String) (hne : laptop.Id ≠ id) :
    (store.Save laptop).2.data.get id = store.data.get id := by
  cases h : store.data.get laptop.Id with
  | none =>
    rw [InMemoryLaptopStore.Save_of_absent store laptop h]
    exact GoMap.get_set_ne _ _ _ _ (Ne.symm hne)
  | some l =>
    rw [InMemoryLaptopStore.Save_of_present store laptop (by simp [h])]

theorem get_saveAll_of_not_saved (laptops : List Laptop) (store : InMemoryLaptopStore)
    (id : String) (hid : ∀ laptop ∈ laptops, laptop.Id ≠ id) :
    (saveAll store laptops).data.get id = store.data.get id := by
  induction laptops generalizing store with
  | nil => rfl
  | cons laptop rest ih =>
    have hrest : ∀ l ∈ rest, l.Id ≠ id := fun l hl => hid l (List.mem_cons_of_mem _ hl)
    rw [saveAll, ih _ hrest]
    exact InMemoryLaptopStore.get_Save_ne store laptop id (hid laptop (List.mem_cons_self _ _))

/-! ### Search -/

theorem isQualified_filter8GB_laptopA : isQualified filter8GB laptopA = true := by
  simp [isQualified, filter8GB, laptopA, exampleCPU, toBit, Memory.GetValue, Memory.GetUnit,
    CPU.GetNumberCores, CPU.GetMinGhz]
  norm_num

theorem isQualified_filter8GB_laptopB : isQualified filter8GB laptopB = false := by
  simp [isQualified, filter8GB, laptopB, exampleCPU, toBit, Memory.GetValue, Memory.GetUnit,
    CPU.GetNumberCores, CPU.GetMinGhz]

theorem InMemoryLaptopStore.Search_loop_recording {σ : Type} (ctx : Context) (filter : Filter)
    (found : σ → Laptop → Option GoError × σ)
    (hctx : ∀ n, ctx n = none) (hfound : ∀ s laptop, (found s laptop).1 = none)
    (data : GoMap Laptop) (polls : Nat) (s : σ) (calls : List Laptop) :
    (InMemoryLaptopStore.Search.loop ctx filter (recording found) data polls (s, calls)).1
        = none ∧
      (InMemoryLaptopStore.Search.loop ctx filter (recording found) data polls (s, calls)).2.2
        = calls ++ (data.map Prod.snd).filter (isQualified filter) := by
  induction data generalizing polls s calls with
  | nil => simp [InMemoryLaptopStore.Search.loop]
  | cons e rest ih =>
    obtain ⟨k, laptop⟩ := e
    by_cases hq : isQualified filter laptop = true
    · have h := ih (polls + 2) (found s laptop).2 (calls ++ [laptop])
      simpa [InMemoryLaptopStore.Search.loop, hctx, hq, deepCopy, recording, hfound] using h
    · have h := ih (polls + 2) s calls
      simpa [InMemoryLaptopStore.Search.loop, hctx, hq] using h

/-- C1: when the context is never cancelled and the callback never fails, `Search` returns no
error and the laptops the callback was called with are, in iteration order, exactly the stored
laptops that satisfy `isQualified`; so each stored laptop is handed over as often as it is
stored if it qualifies (once, for a record stored once) and never if it does not. -/
theorem Search_calls_found_once_per_qualified {σ : Type} (store : InMemoryLaptopStore)
    (ctx : Context) (filter : Filter) (found : σ → Laptop → Option GoError × σ) (s : σ)
    (hctx : ∀ n, ctx n = none) (hfound : ∀ s laptop, (found s laptop).1 = none) :
    (store.Search ctx filter (recording found) (s, [])).1 = none ∧
      (store.Search ctx filter (recording found) (s, [])).2.2
        = (store.data.map Prod.snd).filter (isQualified filter) ∧
      ∀ laptop : Laptop,
        (store.Search ctx filter (recording found) (s, [])).2.2.count laptop
          = if isQualified filter laptop = true then (store.data.map Prod.snd).count laptop
            else 0 := by
  have h := InMemoryLaptopStore.Search_loop_recording ctx filter found hctx hfound
    store.data 0 s []
  simp only [List.nil_append] at h
  refine ⟨h.1, h.2, fun laptop => ?_⟩
  unfold InMemoryLaptopStore.Search
  rw [h.2]
  by_cases hq : isQualified filter laptop = true
  · simp [hq, List.count_filter]
  · simp only [hq, if_false]
    apply List.count_eq_zero_of_not_mem
    intro hmem
    exact hq (List.mem_filter.mp hmem).2

/-- Witness of C1 on a store with two laptops of which one qualifies. -/
theorem Search_calls_found_once_per_qualified_witness :
    (∀ n, background n = none) ∧
      (storeAB.Search background filter8GB
          (recording (fun (n : Nat) (_ : Laptop) => ((none : Option GoError), n + 1)))
          (0, [])).2.2 = [laptopA] := by
  have h := Search_calls_found_once_per_qualified storeAB background filter8GB
    (fun (n : Nat) (_ : Laptop) => ((none : Option GoError), n + 1)) 0
    (fun _ => rfl) (fun _ _ => rfl)
  refine ⟨fun _ => rfl, ?_⟩
  rw [h.2.1]
  simp [storeAB, List.filter, isQualified_filter8GB_laptopA, isQualified_filter8GB_laptopB]

/-! ### The search predicate -/

theorem toBit_of_fits (m : Memory) (hunit : m.Unit ≠ .UNKNOWN)
    (hfits : m.Value * Spec.unitFactor m.Unit < 2 ^ 64) :
    toBit (some m) = m.Value * Spec.unitFactor m.Unit := by
  obtain ⟨value, unit⟩ := m
  cases unit <;>
    simp_all [toBit, Memory.GetValue, Memory.GetUnit, Spec.unitFactor, Nat.shiftLeft_eq,
      Nat.mod_eq_of_lt]

/-- The predicate of the specification holds of `isQualified` as long as both memory sizes,
counted in bits, fit in a `uint64`. -/
theorem isQualified_iff_of_fits (filter : Filter) (laptop : Laptop) (ram minRam : Memory)
    (hram : laptop.Ram = some ram) (hmin : filter.MinRam = some minRam)
    (hramUnit : ram.Unit ≠ .UNKNOWN) (hminUnit : minRam.Unit ≠ .UNKNOWN)
    (hramFits : ram.Value * Spec.unitFactor ram.Unit < 2 ^ 64)
    (hminFits : minRam.Value * Spec.unitFactor minRam.Unit < 2 ^ 64) :
    isQualified filter laptop = true ↔
      laptop.PriceUsd ≤ filter.MaxPriceUsd ∧
      CPU.GetNumberCores laptop.Cpu ≥ filter.MinCpuCores ∧
      CPU.GetMinGhz laptop.Cpu ≥ filter.MinCpuGhz ∧
      ram.Value * Spec.unitFactor ram.Unit ≥ minRam.Value * Spec.unitFactor minRam.Unit := by
  unfold isQualified
  rw [hram, hmin, toBit_of_fits ram hramUnit hramFits, toBit_of_fits minRam hminUnit hminFits]
  by_cases h1 : laptop.PriceUsd > filter.MaxPriceUsd
  · simp [h1]
  · by_cases h2 : CPU.GetNumberCores laptop.Cpu < filter.MinCpuCores
    · simp [h1, h2]
    · by_cases h3 : CPU.GetMinGhz laptop.Cpu < filter.MinCpuGhz
      · simp [h1, h2, h3]
      · by_cases h4 : ram.Value * Spec.unitFactor ram.Unit
            < minRam.Value * Spec.unitFactor minRam.Unit
        · simp [h1, h2, h3, h4]
        · simp only [h1, h2, h3, h4, if_false, true_iff]
          exact ⟨not_lt.mp h1, not_lt.mp h2, not_lt.mp h3, not_lt.mp h4⟩

/-- C2: a laptop with `2 ^ 21` terabytes of memory meets every bound of a filter that asks for
one bit of memory, price, cores and clock included, and `isQualified` rejects it: `toBit`
shifts the value in `uint64`, where `2 ^ 21 << 43` is `0`. -/
theorem isQualified_rejects_ram_of_2pow64_bits :
    isQualified filterOneBit laptopHuge = false ∧
      toBit laptopHuge.Ram = 0 ∧
      laptopHuge.PriceUsd ≤ filterOneBit.MaxPriceUsd ∧
      CPU.GetNumberCores laptopHuge.Cpu ≥ filterOneBit.MinCpuCores ∧
      CPU.GetMinGhz laptopHuge.Cpu ≥ filterOneBit.MinCpuGhz ∧
      Memory.GetUnit laptopHuge.Ram = .TERABYTE ∧
      Memory.GetUnit filterOneBit.MinRam = .BIT ∧
      Memory.GetValue laptopHuge.Ram < 2 ^ 64 ∧
      Memory.GetValue laptopHuge.Ram * Spec.unitFactor .TERABYTE
        ≥ Memory.GetValue filterOneBit.MinRam * Spec.unitFactor .BIT := by
  refine ⟨?_, ?_, ?_, ?_, ?_, rfl, rfl, ?_, ?_⟩
  · simp [isQualified, filterOneBit, laptopHuge, exampleCPU, toBit, Memory.GetValue,
      Memory.GetUnit, CPU.GetNumberCores, CPU.GetMinGhz, Nat.shiftLeft_eq]
  · simp [laptopHuge, toBit, Memory.GetValue, Memory.GetUnit, Nat.shiftLeft_eq]
  · simp [filterOneBit, laptopHuge]
    norm_num
  · simp [filterOneBit, laptopHuge, exampleCPU, CPU.GetNumberCores]
  · simp [filterOneBit, laptopHuge, exampleCPU, CPU.GetMinGhz]
    norm_num
  · simp [laptopHuge, Memory.GetValue]
  · simp [filterOneBit, laptopHuge, Memory.GetValue, Spec.unitFactor]

/-! ### Save and Find -/

/-- C5: after a `Save` of a laptop that returned no error, `Find` of the laptop's id returns
that laptop, equal in every field, and no error; and in a store filled by any sequence of
`Save` calls, `Find` of an id that none of the saved laptops carries returns the nil laptop
and no error. -/
theorem Find_after_Save (store store' : InMemoryLaptopStore) (laptop : Laptop)
    (laptops : List Laptop) (id : String)
    (hsave : store.Save laptop = (none, store'))
    (hid : ∀ saved ∈ laptops, saved.Id ≠ id) :
    store'.Find laptop.Id = .ok (some laptop) ∧
      (saveAll NewInMemoryLaptopStore laptops).Find id = .ok none := by
  constructor
  · cases hget : store.data.get laptop.Id with
    | some l =>
      rw [InMemoryLaptopStore.Save_of_present store laptop (by simp [hget])] at hsave
      simp at hsave
    | none =>
      rw [InMemoryLaptopStore.Save_of_absent store laptop hget] at hsave
      have hstore : store' = { data := store.data.set laptop.Id laptop } :=
        (congrArg Prod.snd hsave).symm
      rw [hstore, InMemoryLaptopStore.Find_eq]
      simp [GoMap.get_set_self]
  · rw [InMemoryLaptopStore.Find_eq, get_saveAll_of_not_saved laptops _ id hid]
    rfl

/-- Witness of C5: `laptopB` saved into a store that holds `laptopA`, and the id `C` that was
never saved. -/
theorem Find_after_Save_witness :
    ({ data := [("A", laptopA)] } : InMemoryLaptopStore).Save laptopB = (none, storeAB) ∧
      storeAB.Find "B" = .ok (some laptopB) ∧
      (saveAll NewInMemoryLaptopStore [laptopA, laptopB]).Find "C" = .ok none := by
  have hsave : ({ data := [("A", laptopA)] } : InMemoryLaptopStore).Save laptopB
      = (none, storeAB) := by
    simp [InMemoryLaptopStore.Save, GoMap.get, GoMap.set, deepCopy, laptopB, storeAB]
  have h := Find_after_Save { data := [("A", laptopA)] } storeAB laptopB [laptopA, laptopB] "C"
    hsave (by simp [laptopA, laptopB])
  exact ⟨hsave, h.1, h.2⟩

/-! ### UploadImage -/

theorem totalSize_cons (chunk : Bytes) (chunks : List Bytes) :
    totalSize (chunk :: chunks) = chunk.length + totalSize chunks := by
  simp [totalSize]

theorem totalSize_append (pre post : List Bytes) :
    totalSize (pre ++ post) = totalSize pre + totalSize post := by
  simp [totalSize]

theorem countP_isImageSave_chunkEvents (chunks : List Bytes) :
    (chunkEvents chunks).countP Event.isImageSave = 0 := by
  induction chunks with
  | nil => rfl
  | cons chunk rest ih =>
    simp [chunkEvents, Event.isImageSave]

theorem UploadImage_loop_of_chunks (ctx : Context) (hctx : ∀ n, ctx n = none)
    (chunks : List Bytes) (polls : Nat) (imageData : Bytes) (imageSize : Nat)
    (hsize : imageSize + totalSize chunks ≤ maxImageSize) :
    LaptopServer.UploadImage.loop ctx (chunkMessages chunks) polls imageData imageSize
      = (.ok (imageData ++ chunks.flatten, imageSize + totalSize chunks),
          chunkEvents chunks ++ [.Recv (.error .EOF)]) := by
  induction chunks generalizing polls imageData imageSize with
  | nil =>
    simp [chunkMessages, chunkEvents, totalSize, LaptopServer.UploadImage.loop, hctx,
      contextError]
  | cons chunk rest ih =>
    rw [totalSize_cons] at hsize
    have hle : ¬ imageSize + chunk.length > maxImageSize := by omega
    have hrest : imageSize + chunk.length + totalSize rest ≤ maxImageSize := by omega
    have h := ih (polls + 1) (imageData ++ chunk) (imageSize + chunk.length) hrest
    simp only [chunkMessages, chunkEvents, List.map_cons] at h ⊢
    simp [LaptopServer.UploadImage.loop, hctx, contextError,
      UploadImageRequest.GetChunkData, hle, h, totalSize_cons, Nat.add_assoc]

theorem UploadImage_loop_of_exceeding (ctx : Context) (hctx : ∀ n, ctx n = none)
    (pre : List Bytes) (big : Bytes) (rest : List (Except GoError UploadImageRequest))
    (polls : Nat) (imageData : Bytes) (imageSize : Nat)
    (hpre : imageSize + totalSize pre ≤ maxImageSize)
    (hbig : imageSize + totalSize pre + big.length > maxImageSize) :
    LaptopServer.UploadImage.loop ctx (chunkMessages pre ++ .ok (.ChunkData big) :: rest) polls
        imageData imageSize
      = (.error (.status .InvalidArgument
            ("Image is too large: " ++ toString (imageSize + totalSize pre + big.length)
              ++ " > " ++ toString maxImageSize)),
          chunkEvents pre ++ [.Recv (.ok (.ChunkData big))]) := by
  induction pre generalizing polls imageData imageSize with
  | nil =>
    simp only [totalSize, List.map_nil, List.sum_nil, Nat.add_zero] at hbig
    simp [chunkMessages, chunkEvents, totalSize, LaptopServer.UploadImage.loop, hctx,
      contextError, UploadImageRequest.GetChunkData, hbig, logError]
  | cons chunk more ih =>
    rw [totalSize_cons] at hpre hbig
    have hle : ¬ imageSize + chunk.length > maxImageSize := by omega
    have h := ih (polls + 1) (imageData ++ chunk) (imageSize + chunk.length)
      (by omega) (by omega)
    simp only [chunkMessages, chunkEvents, List.map_cons, List.cons_append] at h ⊢
    simp [LaptopServer.UploadImage.loop, hctx, contextError,
      UploadImageRequest.GetChunkData, hle, h, totalSize_cons, Nat.add_assoc]

theorem exists_first_exceeding (chunks : List Bytes) (acc : Nat) (hacc : acc ≤ maxImageSize)
    (hsum : acc + totalSize chunks > maxImageSize) :
    ∃ pre big post, chunks = pre ++ big :: post ∧ acc + totalSize pre ≤ maxImageSize ∧
      acc + totalSize pre + big.length > maxImageSize := by
  induction chunks generalizing acc with
  | nil => simp [totalSize] at hsum; omega
  | cons chunk rest ih =>
    rw [totalSize_cons] at hsum
    by_cases h : acc + chunk.length > maxImageSize
    · exact ⟨[], chunk, rest, rfl, by simpa [totalSize] using hacc, by simpa [totalSize] using h⟩
    · obtain ⟨pre, big, post, heq, hpre, hbig⟩ := ih (acc + chunk.length) (by omega) (by omega)
      refine ⟨chunk :: pre, big, post, by simp [heq], ?_, ?_⟩
      · rw [totalSize_cons]; omega
      · rw [totalSize_cons]; omega

/-- C3: for a laptop id the store holds and chunks that total at most 1,048,576 bytes, with a
context that is never cancelled, a store that saves and a response that is sent, `UploadImage`
returns no error; it receives the metadata, each chunk and the end of the stream, then calls
the image store once, with the chunks concatenated in arrival order, and answers with the id
the store returned and the sum of the chunk lengths. A total of exactly 1,048,576 is within
the hypothesis. -/
theorem UploadImage_stores_concatenation {ρ : Type} (server : LaptopServer ρ)
    (stream : ServerStream UploadImageRequest) (laptopID imageType imageID : String)
    (laptop : Laptop) (chunks : List Bytes)
    (hexists : server.laptopStore.data.get laptopID = some laptop)
    (hinbound : stream.inbound = .ok (.Info laptopID imageType) :: chunkMessages chunks)
    (hsize : totalSize chunks ≤ 1048576)
    (hctx : ∀ n, stream.ctx n = none)
    (hsave : server.imageStore.Save laptopID imageType chunks.flatten = .ok imageID)
    (hsend : stream.sendErr 0 = none) :
    server.UploadImage stream
        = (none,
            .Recv (.ok (.Info laptopID imageType)) :: chunkEvents chunks ++
              [.Recv (.error .EOF),
                .ImageSave laptopID imageType chunks.flatten,
                .SendAndClose { Id := imageID, Size := totalSize chunks }]) ∧
      (server.UploadImage stream).2.countP Event.isImageSave = 1 := by
  have hloop := UploadImage_loop_of_chunks stream.ctx hctx chunks 0 [] 0
    (by simpa [maxImageSize] using hsize)
  have hrun : server.UploadImage stream
      = (none,
          .Recv (.ok (.Info laptopID imageType)) :: chunkEvents chunks ++
            [.Recv (.error .EOF),
              .ImageSave laptopID imageType chunks.flatten,
              .SendAndClose { Id := imageID, Size := totalSize chunks }]) := by
    simp only [List.nil_append, Nat.zero_add] at hloop
    simp [LaptopServer.UploadImage, hinbound, UploadImageRequest.GetLaptopId,
      UploadImageRequest.GetImageType, InMemoryLaptopStore.Find_eq, hexists, hloop, hsave,
      hsend]
    omega
  refine ⟨hrun, ?_⟩
  rw [hrun]
  simp [List.countP_cons, List.countP_append, countP_isImageSave_chunkEvents,
    Event.isImageSave]

/-- Witness of C3: two chunks that total exactly 1,048,576 bytes are accepted. -/
theorem UploadImage_stores_concatenation_witness :
    totalSize [List.replicate 1048570 (0 : UInt8), [1, 2, 3, 4, 5, 6]] = 1048576 ∧
      (serverAB.UploadImage uploadOneMiB).1 = none ∧
      (serverAB.UploadImage uploadOneMiB).2.countP Event.isImageSave = 1 := by
  have hsize : totalSize [List.replicate 1048570 (0 : UInt8), [1, 2, 3, 4, 5, 6]] = 1048576 := by
    simp only [totalSize, List.map_cons, List.map_nil, List.length_replicate, List.sum_cons,
      List.sum_nil, List.length_cons, List.length_nil]
    omega
  have hinbound : uploadOneMiB.inbound = .ok (.Info "A" ".jpg") ::
      chunkMessages [List.replicate 1048570 (0 : UInt8), [1, 2, 3, 4, 5, 6]] := by
    unfold uploadOneMiB
    exact Eq.refl _
  have hsave : serverAB.imageStore.Save "A" ".jpg"
      (List.flatten [List.replicate 1048570 (0 : UInt8), [1, 2, 3, 4, 5, 6]])
        = .ok "image-1" := by
    simp only [serverAB, exampleImageStore]
  have h := UploadImage_stores_concatenation serverAB uploadOneMiB "A" ".jpg" "image-1" laptopA
    [List.replicate 1048570 (0 : UInt8), [1, 2, 3, 4, 5, 6]]
    (by simp [serverAB, storeAB, GoMap.get]) hinbound (le_of_eq hsize) (fun _ => Eq.refl _)
    hsave (Eq.refl _)
  exact ⟨hsize, congrArg Prod.fst h.1, h.2⟩

/-- C4: for a laptop id the store holds and chunks whose lengths sum to more than 1,048,576,
with a context that is never cancelled, there is a first chunk that takes the running total
above the ceiling; `UploadImage` fails at that chunk with the status `InvalidArgument`,
"Image is too large" (the ResourceLimitError of the specification), has then received the
metadata, the chunks before it and that chunk and nothing after it, and has made no call of
the image store. -/
theorem UploadImage_rejects_oversize {ρ : Type} (server : LaptopServer ρ)
    (stream : ServerStream UploadImageRequest) (laptopID imageType : String)
    (laptop : Laptop) (chunks : List Bytes)
    (hexists : server.laptopStore.data.get laptopID = some laptop)
    (hinbound : stream.inbound = .ok (.Info laptopID imageType) :: chunkMessages chunks)
    (hsize : totalSize chunks > 1048576)
    (hctx : ∀ n, stream.ctx n = none) :
    ∃ pre big post, chunks = pre ++ big :: post ∧
      totalSize pre ≤ 1048576 ∧ totalSize pre + big.length > 1048576 ∧
      server.UploadImage stream
        = (some (.status .InvalidArgument
              ("Image is too large: " ++ toString (totalSize pre + big.length) ++ " > "
                ++ toString maxImageSize)),
            .Recv (.ok (.Info laptopID imageType)) :: chunkEvents pre ++
              [.Recv (.ok (.ChunkData big))]) ∧
      (server.UploadImage stream).2.countP Event.isImageSave = 0 := by
  have hmax : maxImageSize = 1048576 := by simp [maxImageSize]
  obtain ⟨pre, big, post, heq, hpre, hbig⟩ :=
    exists_first_exceeding chunks 0 (by omega) (by omega)
  simp only [Nat.zero_add] at hpre hbig
  have hloop := UploadImage_loop_of_exceeding stream.ctx hctx pre big (chunkMessages post) 0 [] 0
    (by omega) (by omega)
  have hmsgs : chunkMessages chunks
      = chunkMessages pre ++ .ok (.ChunkData big) :: chunkMessages post := by
    simp [heq, chunkMessages]
  have hrun : server.UploadImage stream
      = (some (.status .InvalidArgument
            ("Image is too large: " ++ toString (totalSize pre + big.length) ++ " > "
              ++ toString maxImageSize)),
          .Recv (.ok (.Info laptopID imageType)) :: chunkEvents pre ++
            [.Recv (.ok (.ChunkData big))]) := by
    simp only [Nat.zero_add] at hloop
    simp [LaptopServer.UploadImage, hinbound, UploadImageRequest.GetLaptopId,
      UploadImageRequest.GetImageType, InMemoryLaptopStore.Find_eq, hexists, hmsgs, hloop]
  refine ⟨pre, big, post, heq, by omega, by omega, hrun, ?_⟩
  rw [hrun]
  simp [List.countP_cons, List.countP_append, countP_isImageSave_chunkEvents,
    Event.isImageSave]

/-- Witness of C4: an upload whose second chunk takes the total to 1,048,577 bytes. -/
theorem UploadImage_rejects_oversize_witness :
    totalSize [List.replicate 1048570 (0 : UInt8), [1, 2, 3, 4, 5, 6, 7], [8]] > 1048576 ∧
      statusCode (serverAB.UploadImage uploadTooLarge).1 = .InvalidArgument ∧
      (serverAB.UploadImage uploadTooLarge).2.countP Event.isImageSave = 0 := by
  have hsize :
      totalSize [List.replicate 1048570 (0 : UInt8), [1, 2, 3, 4, 5, 6, 7], [8]] > 1048576 := by
    simp only [totalSize, List.map_cons, List.map_nil, List.length_replicate, List.sum_cons,
      List.sum_nil, List.length_cons, List.length_nil]
    omega
  have hinbound : uploadTooLarge.inbound = .ok (.Info "A" ".jpg") ::
      chunkMessages [List.replicate 1048570 (0 : UInt8), [1, 2, 3, 4, 5, 6, 7], [8]] := by
    unfold uploadTooLarge
    exact Eq.refl _
  obtain ⟨pre, big, post, -, -, -, hrun, hnone⟩ :=
    UploadImage_rejects_oversize serverAB uploadTooLarge "A" ".jpg" laptopA
      [List.replicate 1048570 (0 : UInt8), [1, 2, 3, 4, 5, 6, 7], [8]]
      (by simp [serverAB, storeAB, GoMap.get]) hinbound hsize (fun _ => Eq.refl _)
  refine ⟨hsize, ?_, hnone⟩
  rw [hrun]
  rfl

/-- C10: when the metadata message names a laptop id that the store does not hold,
`UploadImage` fails with the status `InvalidArgument` (the ValidationError of the
specification) right after that message: the only event of the call is the `Recv` of the
metadata, so no chunk is read and the image store is not called, whatever follows on the
stream and whatever the context says. -/
theorem UploadImage_rejects_unknown_laptop {ρ : Type} (server : LaptopServer ρ)
    (stream : ServerStream UploadImageRequest) (laptopID imageType : String)
    (rest : List (Except GoError UploadImageRequest))
    (habsent : server.laptopStore.data.get laptopID = none)
    (hinbound : stream.inbound = .ok (.Info laptopID imageType) :: rest) :
    server.UploadImage stream
        = (some (.status .InvalidArgument ("Laptop " ++ laptopID ++ " doesn't exist")),
            [.Recv (.ok (.Info laptopID imageType))]) ∧
      (server.UploadImage stream).2.countP Event.isRecv = 1 ∧
      (server.UploadImage stream).2.countP Event.isImageSave = 0 := by
  have hrun : server.UploadImage stream
      = (some (.status .InvalidArgument ("Laptop " ++ laptopID ++ " doesn't exist")),
          [.Recv (.ok (.Info laptopID imageType))]) := by
    simp [LaptopServer.UploadImage, hinbound, UploadImageRequest.GetLaptopId,
      InMemoryLaptopStore.Find_eq, habsent, logError]
  refine ⟨hrun, ?_, ?_⟩ <;> rw [hrun] <;> simp [Event.isRecv, Event.isImageSave]

/-- Witness of C10: an upload for the id `Z` into a store that holds `A` and `B`. -/
theorem UploadImage_rejects_unknown_laptop_witness :
    storeAB.data.get "Z" = none ∧
      serverAB.UploadImage uploadUnknown
        = (some (.status .InvalidArgument "Laptop Z doesn't exist"),
            [.Recv (.ok (.Info "Z" ".jpg"))]) := by
  have habsent : storeAB.data.get "Z" = none := by simp [storeAB, GoMap.get]
  exact ⟨habsent,
    (UploadImage_rejects_unknown_laptop serverAB uploadUnknown "Z" ".jpg"
      [.ok (.ChunkData [1, 2, 3])] habsent rfl).1⟩

/-! ### CreateLaptop -/

theorem String.length_pos_of_ne_empty (s : String) (h : s ≠ "") : 0 < s.length := by
  obtain ⟨data⟩ := s
  cases data with
  | nil => exact absurd rfl h
  | cons c cs => simp [String.length]

/-- C6: for a laptop whose id is not empty, `CreateLaptop` fails with the status
`InvalidArgument` (ValidationError) when `uuid.Parse` rejects the id, and with the status
`AlreadyExists` (ConflictError) when the id is well formed and already in the store; in both
cases the server it leaves behind is the server it found, and after the rejected duplicate
`Find` of the id still returns the laptop stored first. -/
theorem CreateLaptop_rejects_invalid_and_duplicate {ρ : Type} (server : LaptopServer ρ)
    (uuid : UUID) (laptop : Laptop) (hnonempty : laptop.Id ≠ "") :
    (∀ err, uuid.Parse laptop.Id = some err →
        server.CreateLaptop uuid laptop
          = (.error (.status .InvalidArgument
              ("Laptop ID is not a valid UUID: " ++ err.Error)), server)) ∧
      (∀ first, uuid.Parse laptop.Id = none →
        server.laptopStore.data.get laptop.Id = some first →
        server.CreateLaptop uuid laptop
            = (.error (.status .AlreadyExists
                "Cannot save laptop to the store: Record already exists"), server) ∧
          (server.CreateLaptop uuid laptop).2.laptopStore.Find laptop.Id
            = .ok (some first)) := by
  have hlen : 0 < laptop.Id.length := String.length_pos_of_ne_empty _ hnonempty
  constructor
  · intro err hparse
    simp [LaptopServer.CreateLaptop, hlen, hparse]
  · intro first hparse hpresent
    have hsave := InMemoryLaptopStore.Save_of_present server.laptopStore laptop
      (by simp [hpresent])
    have hrun : server.CreateLaptop uuid laptop
        = (.error (.status .AlreadyExists
            "Cannot save laptop to the store: Record already exists"), server) := by
      simp [LaptopServer.CreateLaptop, hlen, hparse, hsave, GoError.Error]
    refine ⟨hrun, ?_⟩
    rw [hrun, InMemoryLaptopStore.Find_eq, hpresent]

/-- Witness of C6: an id that is not a UUID, and the id of a laptop the store holds. -/
theorem CreateLaptop_rejects_invalid_and_duplicate_witness :
    serverU.CreateLaptop exampleUUID laptopBadId
        = (.error (.status .InvalidArgument
            "Laptop ID is not a valid UUID: invalid UUID length: 10"), serverU) ∧
      serverU.CreateLaptop exampleUUID laptopU2
        = (.error (.status .AlreadyExists
            "Cannot save laptop to the store: Record already exists"), serverU) ∧
      (serverU.CreateLaptop exampleUUID laptopU2).2.laptopStore.Find laptopU2.Id
        = .ok (some laptopU) := by
  have hbad := (CreateLaptop_rejects_invalid_and_duplicate serverU exampleUUID laptopBadId
    (by decide)).1 (.New "invalid UUID length: 10") (by decide)
  have hdup := (CreateLaptop_rejects_invalid_and_duplicate serverU exampleUUID laptopU2
    (by decide)).2 laptopU (by decide) (by simp [serverU, laptopU2, GoMap.get])
  exact ⟨hbad, hdup.1, hdup.2⟩

/-! ### SearchLaptop -/

/-- Whatever the store, the filter and the stream, `SearchLaptop` ends with `OK` or with
`Internal`: never with `Canceled` or `DeadlineExceeded`. -/
theorem SearchLaptop_statusCode {ρ : Type} (server : LaptopServer ρ) (filter : Filter)
    (stream : ServerStream Unit) :
    statusCode (server.SearchLaptop filter stream).1 = .OK ∨
      statusCode (server.SearchLaptop filter stream).1 = .Internal := by
  unfold LaptopServer.SearchLaptop
  rcases h : server.laptopStore.Search stream.ctx filter
    (LaptopServer.SearchLaptop.found stream) [] with ⟨err, trace⟩
  cases err with
  | none => left; rfl
  | some e => right; rfl

theorem SearchLaptop_found_sends (stream : ServerStream Unit) (hsend : ∀ n, stream.sendErr n = none)
    (trace : List (Event Unit SearchLaptopResponse)) (laptop : Laptop) :
    LaptopServer.SearchLaptop.found stream trace laptop
      = (none, trace ++ [.Send { Laptop := laptop }]) := by
  simp [LaptopServer.SearchLaptop.found, hsend]

theorem Search_loop_observes_cancellation (stream : ServerStream Unit) (filter : Filter)
    (hsend : ∀ n, stream.sendErr n = none)
    (pre : GoMap Laptop) (entry : String × Laptop) (post : GoMap Laptop)
    (polls : Nat) (trace : List (Event Unit SearchLaptopResponse))
    (hbefore : ∀ n, n < 2 * pre.length → stream.ctx (polls + n) = none)
    (hobserved : stream.ctx (polls + 2 * pre.length) = some .Canceled ∨
      (stream.ctx (polls + 2 * pre.length) ≠ some .Canceled ∧
        stream.ctx (polls + 2 * pre.length + 1) = some .DeadlineExceeded)) :
    InMemoryLaptopStore.Search.loop stream.ctx filter (LaptopServer.SearchLaptop.found stream)
        (pre ++ entry :: post) polls trace
      = (some (.New "Context is cancelled"),
          trace ++ ((pre.map Prod.snd).filter (isQualified filter)).map
            (fun laptop => .Send { Laptop := laptop })) := by
  induction pre generalizing polls trace with
  | nil =>
    obtain ⟨k, laptop⟩ := entry
    simp only [List.length_nil, Nat.mul_zero, Nat.add_zero] at hobserved
    rcases hobserved with h | ⟨h1, h2⟩
    · simp [InMemoryLaptopStore.Search.loop, h]
    · simp [InMemoryLaptopStore.Search.loop, h1, h2]
  | cons e rest ih =>
    obtain ⟨k, laptop⟩ := e
    have h0 : stream.ctx polls = none := by
      simpa using hbefore 0 (by simp)
    have h1 : stream.ctx (polls + 1) = none := by
      simpa using hbefore 1 (by simp; omega)
    have hbefore' : ∀ n, n < 2 * rest.length → stream.ctx (polls + 2 + n) = none := by
      intro n hn
      have := hbefore (2 + n) (by simp; omega)
      simpa [Nat.add_assoc] using this
    have hobserved' : stream.ctx (polls + 2 + 2 * rest.length) = some .Canceled ∨
        (stream.ctx (polls + 2 + 2 * rest.length) ≠ some .Canceled ∧
          stream.ctx (polls + 2 + 2 * rest.length + 1) = some .DeadlineExceeded) := by
      have e1 : polls + 2 * (rest.length + 1) = polls + 2 + 2 * rest.length := by omega
      simpa [e1] using hobserved
    by_cases hq : isQualified filter laptop = true
    · have h := ih (polls + 2) (trace ++ [.Send { Laptop := laptop }]) hbefore' hobserved'
      simp [InMemoryLaptopStore.Search.loop, h0, h1, hq, deepCopy,
        SearchLaptop_found_sends stream hsend, h]
    · have h := ih (polls + 2) trace hbefore' hobserved'
      simp [InMemoryLaptopStore.Search.loop, h0, h1, hq, h]

/-- The part of C9 that holds: when the cancellation (or the passed deadline) is observed at a
candidate, `SearchLaptop` has sent the qualified laptops among the candidates before it and
sends nothing more. The status it ends with is `Internal` in both cases. -/
theorem SearchLaptop_sends_nothing_after_cancellation {ρ : Type} (server : LaptopServer ρ)
    (filter : Filter) (stream : ServerStream Unit)
    (pre : GoMap Laptop) (entry : String × Laptop) (post : GoMap Laptop)
    (hdata : server.laptopStore.data = pre ++ entry :: post)
    (hsend : ∀ n, stream.sendErr n = none)
    (hbefore : ∀ n, n < 2 * pre.length → stream.ctx n = none)
    (hobserved : stream.ctx (2 * pre.length) = some .Canceled ∨
      (stream.ctx (2 * pre.length) ≠ some .Canceled ∧
        stream.ctx (2 * pre.length + 1) = some .DeadlineExceeded)) :
    server.SearchLaptop filter stream
      = (some (.status .Internal "Unexpected error: Context is cancelled"),
          ((pre.map Prod.snd).filter (isQualified filter)).map
            (fun laptop => .Send { Laptop := laptop })) := by
  have h := Search_loop_observes_cancellation stream filter hsend pre entry post 0 []
    (by simpa using hbefore) (by simpa using hobserved)
  simp [LaptopServer.SearchLaptop, InMemoryLaptopStore.Search, hdata, h, GoError.Error]

/-- C9: on a store that holds laptops, `SearchLaptop` ends a cancelled call and a call whose
deadline has passed with one and the same status, `Internal: Unexpected error: Context is
cancelled`, and a call on which `Send` fails with the status code `Internal` too; the
`contextError` helper that `UploadImage` and `RateLaptop` use maps the same two context
errors to `Canceled` and `DeadlineExceeded`. -/
theorem SearchLaptop_cancellation_is_internal :
    serverAB.SearchLaptop filter8GB searchCancelled
        = (some (.status .Internal "Unexpected error: Context is cancelled"), []) ∧
      serverAB.SearchLaptop filter8GB searchDeadline
        = (some (.status .Internal "Unexpected error: Context is cancelled"), []) ∧
      serverAB.SearchLaptop filter8GB searchSendFails
        = (some (.status .Internal "Unexpected error: transport is closing"),
            [.Send { Laptop := laptopA }]) ∧
      statusCode (serverAB.SearchLaptop filter8GB searchCancelled).1
        = statusCode (serverAB.SearchLaptop filter8GB searchSendFails).1 ∧
      statusCode (contextError (some .Canceled)) = .Canceled ∧
      statusCode (contextError (some .DeadlineExceeded)) = .DeadlineExceeded := by
  have hcancel : serverAB.SearchLaptop filter8GB searchCancelled
      = (some (.status .Internal "Unexpected error: Context is cancelled"), []) := by
    simp [LaptopServer.SearchLaptop, InMemoryLaptopStore.Search, InMemoryLaptopStore.Search.loop,
      serverAB, storeAB, searchCancelled, GoError.Error]
  have hdeadline : serverAB.SearchLaptop filter8GB searchDeadline
      = (some (.status .Internal "Unexpected error: Context is cancelled"), []) := by
    simp [LaptopServer.SearchLaptop, InMemoryLaptopStore.Search, InMemoryLaptopStore.Search.loop,
      serverAB, storeAB, searchDeadline, GoError.Error]
  have hsend : serverAB.SearchLaptop filter8GB searchSendFails
      = (some (.status .Internal "Unexpected error: transport is closing"),
          [.Send { Laptop := laptopA }]) := by
    simp [LaptopServer.SearchLaptop, InMemoryLaptopStore.Search, InMemoryLaptopStore.Search.loop,
      LaptopServer.SearchLaptop.found, serverAB, storeAB, searchSendFails, background,
      isQualified_filter8GB_laptopA, deepCopy, GoError.Error]
  refine ⟨hcancel, hdeadline, hsend, ?_, rfl, rfl⟩
  rw [hcancel, hsend]
  rfl

/-! ### RateLaptop -/

theorem Spec.scoresFor_append (laptopID : String) (seen : List RateLaptopRequest)
    (req : RateLaptopRequest) :
    Spec.scoresFor laptopID (seen ++ [req])
      = if req.LaptopId = laptopID then Spec.scoresFor laptopID seen ++ [req.Score]
        else Spec.scoresFor laptopID seen := by
  by_cases h : req.LaptopId = laptopID <;> simp [Spec.scoresFor, List.filter_append, h]

theorem Spec.Tracks_nil : Spec.Tracks [] [] := by
  intro laptopID
  simp [Spec.scoresFor, GoMap.get]

theorem InMemoryRatingStore.Add_tracks (ratings : GoMap Rating) (seen : List RateLaptopRequest)
    (req : RateLaptopRequest) (htracks : Spec.Tracks ratings seen) :
    ∃ ratings', InMemoryRatingStore.Add ratings req.LaptopId req.Score
        = (.ok { Count := (Spec.scoresFor req.LaptopId (seen ++ [req])).length,
                 Sum := (Spec.scoresFor req.LaptopId (seen ++ [req])).sum }, ratings') ∧
      Spec.Tracks ratings' (seen ++ [req]) := by
  have hself : Spec.scoresFor req.LaptopId (seen ++ [req])
      = Spec.scoresFor req.LaptopId seen ++ [req.Score] := by
    simp [Spec.scoresFor_append]
  have hrating : (match ratings.get req.LaptopId with
        | none => ({ Count := 1, Sum := req.Score } : Rating)
        | some r => { Count := r.Count + 1, Sum := r.Sum + req.Score })
      = { Count := (Spec.scoresFor req.LaptopId (seen ++ [req])).length,
          Sum := (Spec.scoresFor req.LaptopId (seen ++ [req])).sum } := by
    rw [htracks req.LaptopId, hself]
    by_cases hnil : Spec.scoresFor req.LaptopId seen = []
    · simp [hnil]
    · simp [hnil]
  refine ⟨ratings.set req.LaptopId
    { Count := (Spec.scoresFor req.LaptopId (seen ++ [req])).length,
      Sum := (Spec.scoresFor req.LaptopId (seen ++ [req])).sum }, ?_, ?_⟩
  · unfold InMemoryRatingStore.Add
    simp only [hrating]
  · intro laptopID
    by_cases hid : laptopID = req.LaptopId
    · subst hid
      rw [GoMap.get_set_self, hself]
      simp
    · rw [GoMap.get_set_ne _ _ _ _ hid, htracks laptopID, Spec.scoresFor_append]
      simp [Ne.symm hid]

theorem filterMap_response_rateEvents (seen requests : List RateLaptopRequest) :
    (Spec.rateEvents seen requests ++ [Event.Recv (.error .EOF)]).filterMap Event.response?
      = Spec.rateResponses seen requests := by
  induction requests generalizing seen with
  | nil => simp [Spec.rateEvents, Spec.rateResponses, Event.response?]
  | cons req rest ih =>
    simp [Spec.rateEvents, Spec.rateResponses, Event.response?, ih]

theorem RateLaptop_loop_tracks (laptopStore : InMemoryLaptopStore) (ctx : Context)
    (sendErr : Nat → Option GoError) (hctx : ∀ n, ctx n = none) (hsend : ∀ n, sendErr n = none)
    (requests : List RateLaptopRequest)
    (hexists : ∀ req ∈ requests, laptopStore.data.get req.LaptopId ≠ none)
    (seen : List RateLaptopRequest) (polls sends : Nat) (ratings : GoMap Rating)
    (htracks : Spec.Tracks ratings seen) :
    ∃ ratings', LaptopServer.RateLaptop.loop laptopStore InMemoryRatingStore.Add ctx sendErr
          (requests.map .ok) polls sends ratings
        = (none, Spec.rateEvents seen requests ++ [.Recv (.error .EOF)], ratings') ∧
      Spec.Tracks ratings' (seen ++ requests) := by
  induction requests generalizing seen polls sends ratings with
  | nil =>
    exact ⟨ratings, by simp [LaptopServer.RateLaptop.loop, hctx, contextError, Spec.rateEvents],
      by simpa using htracks⟩
  | cons req rest ih =>
    obtain ⟨laptop, hlaptop⟩ := Option.ne_none_iff_exists'.mp
      (hexists req (List.mem_cons_self _ _))
    obtain ⟨ratings₁, hadd, htracks₁⟩ := InMemoryRatingStore.Add_tracks ratings seen req htracks
    obtain ⟨ratings', hloop, htracks'⟩ := ih
      (fun r hr => hexists r (List.mem_cons_of_mem _ hr)) (seen ++ [req]) (polls + 1) (sends + 1)
      ratings₁ htracks₁
    refine ⟨ratings', ?_, by simpa using htracks'⟩
    simp [LaptopServer.RateLaptop.loop, hctx, contextError, InMemoryLaptopStore.Find_eq,
      hlaptop, hadd, hsend, hloop, Spec.rateEvents, Spec.rateResponse]

/-- C7: with the rating store of the specification (a cumulative count and sum per id, here
holding the aggregates of the earlier requests `seen`), a context that is never cancelled and
sends that succeed, `RateLaptop` on requests that all name stored laptops returns no error;
its events are, for each request in order, the receive of the request, the call of the rating
store and the send of one response, followed by the receive that ends the stream; each
response carries the request's id, the number of scores submitted so far for that id and
their sum divided by that number. -/
theorem RateLaptop_answers_each_request (server : LaptopServer (GoMap Rating))
    (stream : ServerStream RateLaptopRequest) (data : GoMap Rating)
    (seen requests : List RateLaptopRequest)
    (hstore : server.ratingStore = InMemoryRatingStore data)
    (htracks : Spec.Tracks data seen)
    (hinbound : stream.inbound = requests.map .ok)
    (hexists : ∀ req ∈ requests, server.laptopStore.data.get req.LaptopId ≠ none)
    (hctx : ∀ n, stream.ctx n = none)
    (hsend : ∀ n, stream.sendErr n = none) :
    (server.RateLaptop stream).1 = none ∧
      (server.RateLaptop stream).2.1
        = Spec.rateEvents seen requests ++ [.Recv (.error .EOF)] ∧
      (server.RateLaptop stream).2.1.filterMap Event.response?
        = Spec.rateResponses seen requests ∧
      Spec.Tracks (server.RateLaptop stream).2.2.ratingStore.state (seen ++ requests) := by
  obtain ⟨ratings', hloop, htracks'⟩ := RateLaptop_loop_tracks server.laptopStore stream.ctx
    stream.sendErr hctx hsend requests hexists seen 0 0 data htracks
  have hrun : server.RateLaptop stream
      = (none, Spec.rateEvents seen requests ++ [.Recv (.error .EOF)],
          { server with ratingStore := { server.ratingStore with state := ratings' } }) := by
    simp [LaptopServer.RateLaptop, hstore, hinbound, InMemoryRatingStore, hloop]
  rw [hrun]
  exact ⟨rfl, rfl, filterMap_response_rateEvents seen requests, htracks'⟩

/-- Witness of C7: the scores 8 and 4 for laptop `A` are answered with count 1, average 8 and
then count 2, average 6. -/
theorem RateLaptop_answers_each_request_witness :
    (serverAB.RateLaptop rateTwice).1 = none ∧
      (serverAB.RateLaptop rateTwice).2.1
        = [.Recv (.ok { LaptopId := "A", Score := 8 }),
            .RatingAdd "A" 8,
            .Send { LaptopId := "A", RatedCount := 1, AverageScore := 8 },
            .Recv (.ok { LaptopId := "A", Score := 4 }),
            .RatingAdd "A" 4,
            .Send { LaptopId := "A", RatedCount := 2, AverageScore := 6 },
            .Recv (.error .EOF)] := by
  have h := RateLaptop_answers_each_request serverAB rateTwice [] []
    [{ LaptopId := "A", Score := 8 }, { LaptopId := "A", Score := 4 }]
    rfl Spec.Tracks_nil rfl (by simp [serverAB, storeAB, GoMap.get]) (fun _ => rfl)
    (fun _ => rfl)
  refine ⟨h.1, ?_⟩
  rw [h.2.1]
  simp [Spec.rateEvents, Spec.rateResponse, Spec.scoresFor]
  norm_num

theorem filterMap_request_ratedEvents {ρ : Type}
    (Add : ρ → String → Float64 → Except GoError Rating × ρ) (ratings : ρ)
    (requests : List RateLaptopRequest) :
    (Spec.ratedEvents Add ratings requests).filterMap Event.request? = requests := by
  induction requests generalizing ratings with
  | nil => rfl
  | cons req rest ih => simp [Spec.ratedEvents, Event.request?, ih]

theorem filterMap_response_ratedEvents {ρ : Type}
    (Add : ρ → String → Float64 → Except GoError Rating × ρ) (ratings : ρ)
    (requests : List RateLaptopRequest) :
    (Spec.ratedEvents Add ratings requests).filterMap Event.response?
      = Spec.ratedResponses Add ratings requests := by
  induction requests generalizing ratings with
  | nil => rfl
  | cons req rest ih => simp [Spec.ratedEvents, Spec.ratedResponses, Event.response?, ih]

theorem length_ratedResponses {ρ : Type}
    (Add : ρ → String → Float64 → Except GoError Rating × ρ) (ratings : ρ)
    (requests : List RateLaptopRequest) :
    (Spec.ratedResponses Add ratings requests).length = requests.length := by
  induction requests generalizing ratings with
  | nil => rfl
  | cons req rest ih => simp [Spec.ratedResponses, ih]

theorem ratedIds_ratedEvents {ρ : Type}
    (Add : ρ → String → Float64 → Except GoError Rating × ρ) (ratings : ρ)
    (requests : List RateLaptopRequest) :
    ratedIds (Spec.ratedEvents Add ratings requests)
      = requests.map (fun req => req.LaptopId) := by
  induction requests generalizing ratings with
  | nil => rfl
  | cons req rest ih => simp [Spec.ratedEvents, ratedIds, ih]

theorem ratedIds_append_Recv {Req Res : Type} (events : List (Event Req Res))
    (r : Except GoError Req) :
    ratedIds (events ++ [.Recv r]) = ratedIds events := by
  induction events with
  | nil => rfl
  | cons e rest ih => cases e <;> simp [ratedIds, ih]

theorem RateLaptop_loop_rated {ρ : Type} (laptopStore : InMemoryLaptopStore)
    (Add : ρ → String → Float64 → Except GoError Rating × ρ) (ctx : Context)
    (sendErr : Nat → Option GoError) (hctx : ∀ n, ctx n = none) (hsend : ∀ n, sendErr n = none)
    (hadd : ∀ ratings laptopID score, ∃ rating ratings',
      Add ratings laptopID score = (.ok rating, ratings'))
    (requests : List RateLaptopRequest)
    (hexists : ∀ req ∈ requests, laptopStore.data.get req.LaptopId ≠ none)
    (polls sends : Nat) (ratings : ρ) :
    LaptopServer.RateLaptop.loop laptopStore Add ctx sendErr (requests.map .ok) polls sends
        ratings
      = (none, Spec.ratedEvents Add ratings requests ++ [.Recv (.error .EOF)],
          Spec.ratingsAfter Add ratings requests) := by
  induction requests generalizing polls sends ratings with
  | nil =>
    simp [LaptopServer.RateLaptop.loop, hctx, contextError, Spec.ratedEvents, Spec.ratingsAfter]
  | cons req rest ih =>
    obtain ⟨laptop, hlaptop⟩ := Option.ne_none_iff_exists'.mp
      (hexists req (List.mem_cons_self _ _))
    obtain ⟨rating, ratings₁, hadd₁⟩ := hadd ratings req.LaptopId req.Score
    have hrest := ih (fun r hr => hexists r (List.mem_cons_of_mem _ hr)) (polls + 1)
      (sends + 1) ratings₁
    simp [LaptopServer.RateLaptop.loop, hctx, contextError, InMemoryLaptopStore.Find_eq,
      hlaptop, hadd₁, hsend, hrest, Spec.ratedEvents, Spec.ratingsAfter, Spec.responseOf]

theorem RateLaptop_loop_unknown {ρ : Type} (laptopStore : InMemoryLaptopStore)
    (Add : ρ → String → Float64 → Except GoError Rating × ρ) (ctx : Context)
    (sendErr : Nat → Option GoError) (hctx : ∀ n, ctx n = none) (hsend : ∀ n, sendErr n = none)
    (hadd : ∀ ratings laptopID score, ∃ rating ratings',
      Add ratings laptopID score = (.ok rating, ratings'))
    (requests : List RateLaptopRequest) (unknown : RateLaptopRequest)
    (later : List (Except GoError RateLaptopRequest))
    (hexists : ∀ req ∈ requests, laptopStore.data.get req.LaptopId ≠ none)
    (hunknown : laptopStore.data.get unknown.LaptopId = none)
    (polls sends : Nat) (ratings : ρ) :
    LaptopServer.RateLaptop.loop laptopStore Add ctx sendErr
        (requests.map .ok ++ .ok unknown :: later) polls sends ratings
      = (some (.status .NotFound ("LaptopID " ++ unknown.LaptopId ++ " is not found")),
          Spec.ratedEvents Add ratings requests ++ [.Recv (.ok unknown)],
          Spec.ratingsAfter Add ratings requests) := by
  induction requests generalizing polls sends ratings with
  | nil =>
    simp [LaptopServer.RateLaptop.loop, hctx, contextError, InMemoryLaptopStore.Find_eq,
      hunknown, logError, Spec.ratedEvents, Spec.ratingsAfter]
  | cons req rest ih =>
    obtain ⟨laptop, hlaptop⟩ := Option.ne_none_iff_exists'.mp
      (hexists req (List.mem_cons_self _ _))
    obtain ⟨rating, ratings₁, hadd₁⟩ := hadd ratings req.LaptopId req.Score
    have hrest := ih (fun r hr => hexists r (List.mem_cons_of_mem _ hr)) (polls + 1)
      (sends + 1) ratings₁
    simp [LaptopServer.RateLaptop.loop, hctx, contextError, InMemoryLaptopStore.Find_eq,
      hlaptop, hadd₁, hsend, hrest, Spec.ratedEvents, Spec.ratingsAfter, Spec.responseOf]

/-- C8: when the first `k` requests name stored laptops and the next one names an id the
store does not hold (context never cancelled, sends and rating store not failing),
`RateLaptop` fails with the status `NotFound`. Its events are then exactly: for each of the
`k` requests in order the receive, the call of `ratingStore.Add` and the send of the response
built from the rating that call returned, followed by the receive of the request with the
unknown id and nothing more, so no later request is read. The rating store is left in the
state the `k` calls of `Add` brought it to, and `Add` is not called for the unknown id. A
stream that ends after the `k` requests produces the same events, responses and rating
store with no error, so the failure undoes nothing. -/
theorem RateLaptop_fails_at_unknown_laptop {ρ : Type} (server : LaptopServer ρ)
    (ctx : Context) (sendErr : Nat → Option GoError)
    (requests : List RateLaptopRequest) (unknown : RateLaptopRequest)
    (later : List (Except GoError RateLaptopRequest))
    (hexists : ∀ req ∈ requests, server.laptopStore.data.get req.LaptopId ≠ none)
    (hunknown : server.laptopStore.data.get unknown.LaptopId = none)
    (hctx : ∀ n, ctx n = none)
    (hsend : ∀ n, sendErr n = none)
    (hadd : ∀ ratings laptopID score, ∃ rating ratings',
      server.ratingStore.Add ratings laptopID score = (.ok rating, ratings')) :
    server.RateLaptop
          { ctx := ctx, inbound := requests.map .ok ++ .ok unknown :: later, sendErr := sendErr }
        = (some (.status .NotFound ("LaptopID " ++ unknown.LaptopId ++ " is not found")),
            Spec.ratedEvents server.ratingStore.Add server.ratingStore.state requests
              ++ [.Recv (.ok unknown)],
            { server with ratingStore := { server.ratingStore with
                state := Spec.ratingsAfter server.ratingStore.Add server.ratingStore.state
                  requests } }) ∧
      server.RateLaptop { ctx := ctx, inbound := requests.map .ok, sendErr := sendErr }
        = (none,
            Spec.ratedEvents server.ratingStore.Add server.ratingStore.state requests
              ++ [.Recv (.error .EOF)],
            { server with ratingStore := { server.ratingStore with
                state := Spec.ratingsAfter server.ratingStore.Add server.ratingStore.state
                  requests } }) ∧
      (Spec.ratedEvents server.ratingStore.Add server.ratingStore.state requests
          ++ [Event.Recv (.ok unknown)]).filterMap Event.response?
        = Spec.ratedResponses server.ratingStore.Add server.ratingStore.state requests ∧
      (Spec.ratedResponses server.ratingStore.Add server.ratingStore.state requests).length
        = requests.length ∧
      (Spec.ratedEvents server.ratingStore.Add server.ratingStore.state requests
          ++ [Event.Recv (.ok unknown)]).filterMap Event.request?
        = requests ++ [unknown] ∧
      unknown.LaptopId ∉ ratedIds
        (Spec.ratedEvents server.ratingStore.Add server.ratingStore.state requests
          ++ [Event.Recv (.ok unknown)]) := by
  have hfail := RateLaptop_loop_unknown server.laptopStore server.ratingStore.Add ctx sendErr
    hctx hsend hadd requests unknown later hexists hunknown 0 0 server.ratingStore.state
  have hrun := RateLaptop_loop_rated server.laptopStore server.ratingStore.Add ctx sendErr
    hctx hsend hadd requests hexists 0 0 server.ratingStore.state
  refine ⟨?_, ?_, ?_, length_ratedResponses _ _ _, ?_, ?_⟩
  · simp [LaptopServer.RateLaptop, hfail]
  · simp [LaptopServer.RateLaptop, hrun]
  · simp [List.filterMap_append, filterMap_response_ratedEvents, Event.response?]
  · simp [List.filterMap_append, filterMap_request_ratedEvents, Event.request?]
  · rw [ratedIds_append_Recv, ratedIds_ratedEvents]
    intro hmem
    obtain ⟨req, hreq, hid⟩ := List.mem_map.mp hmem
    apply hexists req hreq
    rw [hid]
    exact hunknown

/-- Witness of C8: the requests (A, 8), (Z, 5), (B, 3) on a store without `Z`: one response,
for `A` with count 1 and average 8, then `NotFound`; the request for `B` is not received and
the rating store holds the rating of `A`. -/
theorem RateLaptop_fails_at_unknown_laptop_witness :
    storeAB.data.get "Z" = none ∧
      serverAB.RateLaptop rateUnknown
        = (some (.status .NotFound "LaptopID Z is not found"),
            [.Recv (.ok { LaptopId := "A", Score := 8 }),
              .RatingAdd "A" 8,
              .Send { LaptopId := "A", RatedCount := 1, AverageScore := 8 },
              .Recv (.ok { LaptopId := "Z", Score := 5 })],
            { serverAB with
                ratingStore := InMemoryRatingStore [("A", { Count := 1, Sum := 8 })] }) := by
  have hunknown : storeAB.data.get "Z" = none := by simp [storeAB, GoMap.get]
  have h := (RateLaptop_fails_at_unknown_laptop serverAB background (fun _ => none)
      [{ LaptopId := "A", Score := 8 }] { LaptopId := "Z", Score := 5 }
      [.ok { LaptopId := "B", Score := 3 }]
      (by simp [serverAB, storeAB, GoMap.get]) hunknown (fun _ => rfl) (fun _ => rfl)
      (fun ratings laptopID score => ⟨_, _, rfl⟩)).1
  refine ⟨hunknown, ?_⟩
  have hstream : rateUnknown
      = { ctx := background,
          inbound := [({ LaptopId := "A", Score := 8 } : RateLaptopRequest)].map .ok
            ++ .ok { LaptopId := "Z", Score := 5 } :: [.ok { LaptopId := "B", Score := 3 }],
          sendErr := fun _ => none } := rfl
  rw [hstream, h]
  simp [Spec.ratedEvents, Spec.ratingsAfter, Spec.responseOf, serverAB, NewInMemoryRatingStore,
    InMemoryRatingStore, InMemoryRatingStore.Add, GoMap.get, GoMap.set]

/-! ### UploadImage: when a blob is stored -/

theorem blobPersisted_append {Req Res : Type} (imageStore : ImageStore)
    (xs ys : List (Event Req Res)) :
    blobPersisted imageStore (xs ++ ys)
      = (blobPersisted imageStore xs || blobPersisted imageStore ys) := by
  simp [blobPersisted, List.any_append]

theorem blobPersisted_Recv_cons {Req Res : Type} (imageStore : ImageStore)
    (r : Except GoError Req) (events : List (Event Req Res)) :
    blobPersisted imageStore (.Recv r :: events) = blobPersisted imageStore events := by
  simp [blobPersisted]

theorem UploadImage_loop_persists_nothing (imageStore : ImageStore) (ctx : Context)
    (inbound : List (Except GoError UploadImageRequest)) (polls : Nat) (imageData : Bytes)
    (imageSize : Nat) :
    blobPersisted imageStore
      (LaptopServer.UploadImage.loop ctx inbound polls imageData imageSize).2 = false := by
  induction inbound generalizing polls imageData imageSize with
  | nil =>
    cases hctx : contextError (ctx polls) <;>
      simp [LaptopServer.UploadImage.loop, hctx, blobPersisted]
  | cons r rest ih =>
    cases hctx : contextError (ctx polls) with
    | some err => simp [LaptopServer.UploadImage.loop, hctx, blobPersisted]
    | none =>
      cases r with
      | error err =>
        by_cases heof : err = .EOF <;>
          simp [LaptopServer.UploadImage.loop, hctx, heof, blobPersisted]
      | ok req =>
        by_cases hbig : imageSize + req.GetChunkData.length > maxImageSize
        · simp [LaptopServer.UploadImage.loop, hctx, hbig, blobPersisted]
        · have h := ih (polls + 1) (imageData ++ req.GetChunkData)
            (imageSize + req.GetChunkData.length)
          simp only [LaptopServer.UploadImage.loop, hctx, hbig, if_false]
          rw [blobPersisted_Recv_cons]
          exact h

/-- C11, as amended: when `UploadImage` returns an error, either the image store has stored
no blob for the call, or the error is the one for a failed `SendAndClose`, which the handler
returns after the store has saved the blob. -/
theorem UploadImage_error_leaves_blob_only_if_send_fails {ρ : Type} (server : LaptopServer ρ)
    (stream : ServerStream UploadImageRequest)
    (herror : (server.UploadImage stream).1 ≠ none) :
    blobPersisted server.imageStore (server.UploadImage stream).2 = false ∨
      ∃ err, stream.sendErr 0 = some err ∧
        (server.UploadImage stream).1
          = some (.status .Unknown ("Cannot save image in the store: " ++ err.Error)) := by
  have hloop := UploadImage_loop_persists_nothing server.imageStore stream.ctx
    stream.inbound.tail 0 [] 0
  simp only [LaptopServer.UploadImage] at herror ⊢
  generalize UploadImageRequest.GetLaptopId _ = laptopID at herror ⊢
  generalize UploadImageRequest.GetImageType _ = imageType at herror ⊢
  generalize stream.inbound.headD _ = first at herror ⊢
  generalize LaptopServer.UploadImage.loop stream.ctx stream.inbound.tail 0 [] 0 = looped
    at herror hloop ⊢
  obtain ⟨result, events⟩ := looped
  cases hfind : server.laptopStore.Find laptopID with
  | error err => left; simp [blobPersisted]
  | ok found =>
    cases found with
    | none => left; simp [blobPersisted]
    | some laptop =>
      cases result with
      | error err =>
        left
        simpa [blobPersisted_Recv_cons] using hloop
      | ok pair =>
        obtain ⟨imageData, imageSize⟩ := pair
        have hevents : blobPersisted server.imageStore events = false := hloop
        simp only [hfind] at herror ⊢
        cases hsave : server.imageStore.Save laptopID imageType imageData with
        | error err =>
          left
          simp only [List.cons_append, blobPersisted_Recv_cons, blobPersisted_append, hevents]
          simp [blobPersisted, hsave]
        | ok imageID =>
          simp only [hsave] at herror
          cases hsend : stream.sendErr 0 with
          | none =>
            exfalso
            apply herror
            simp only [hsend]
          | some err =>
            right
            exact ⟨err, rfl, rfl⟩

/-- Witness of the amended C11: an upload for an id the store does not hold returns an error
and no blob has been stored. -/
theorem UploadImage_error_leaves_blob_only_if_send_fails_witness :
    (serverAB.UploadImage uploadUnknown).1 ≠ none ∧
      (blobPersisted serverAB.imageStore (serverAB.UploadImage uploadUnknown).2 = false ∨
        ∃ err, uploadUnknown.sendErr 0 = some err ∧
          (serverAB.UploadImage uploadUnknown).1
            = some (.status .Unknown ("Cannot save image in the store: " ++ err.Error))) := by
  have herror : (serverAB.UploadImage uploadUnknown).1 ≠ none := by
    simp [LaptopServer.UploadImage, uploadUnknown, serverAB, storeAB,
      UploadImageRequest.GetLaptopId, InMemoryLaptopStore.Find_eq, GoMap.get]
  exact ⟨herror,
    UploadImage_error_leaves_blob_only_if_send_fails serverAB uploadUnknown herror⟩

/-- C11 fails as stated: for an upload of one chunk for a stored laptop, the image store
saves the blob, `SendAndClose` then fails, and `UploadImage` returns an error although the
blob has been stored. -/
theorem UploadImage_returns_error_after_blob_stored :
    serverAB.UploadImage uploadSendFails
        = (some (.status .Unknown "Cannot save image in the store: transport is closing"),
            [.Recv (.ok (.Info "A" ".jpg")),
              .Recv (.ok (.ChunkData [1, 2, 3])),
              .Recv (.error .EOF),
              .ImageSave "A" ".jpg" [1, 2, 3],
              .SendAndClose { Id := "image-1", Size := 3 }]) ∧
      (serverAB.UploadImage uploadSendFails).1 ≠ none ∧
      blobPersisted serverAB.imageStore (serverAB.UploadImage uploadSendFails).2 = true := by
  have hrun : serverAB.UploadImage uploadSendFails
      = (some (.status .Unknown "Cannot save image in the store: transport is closing"),
          [.Recv (.ok (.Info "A" ".jpg")),
            .Recv (.ok (.ChunkData [1, 2, 3])),
            .Recv (.error .EOF),
            .ImageSave "A" ".jpg" [1, 2, 3],
            .SendAndClose { Id := "image-1", Size := 3 }]) := by
    simp [LaptopServer.UploadImage, LaptopServer.UploadImage.loop, uploadSendFails, serverAB,
      storeAB, exampleImageStore, background, contextError, UploadImageRequest.GetLaptopId,
      UploadImageRequest.GetImageType, UploadImageRequest.GetChunkData,
      InMemoryLaptopStore.Find_eq, GoMap.get, maxImageSize, logError, GoError.Error]
  refine ⟨hrun, ?_, ?_⟩
  · rw [hrun]; simp
  · rw [hrun]; simp [blobPersisted, serverAB, exampleImageStore]

/-! ### The laptop store with explicit pointers -/

theorem Pointers.getElem?_set_length (objs : List Pointers.LaptopObj)
    (zero obj : Pointers.LaptopObj) :
    (objs ++ [zero]).set objs.length obj = objs ++ [obj] := by
  induction objs with
  | nil => rfl
  | cons o rest ih => simp [ih]

/-- The copy `deepCopy` makes is a new laptop object that holds the GPU and storage pointers
of the original: the element objects are shared, not copied. -/
theorem Pointers.deepCopy_shares_elements (h : Pointers.Heap) (laptop : Pointers.Addr)
    (obj : Pointers.LaptopObj) (hobj : h.laptops[laptop]? = some obj) :
    Pointers.deepCopy h laptop
      = (.ok h.laptops.length, { h with laptops := h.laptops ++ [obj] }) := by
  have hlt : laptop < h.laptops.length := by
    rcases List.getElem?_eq_some_iff.mp hobj with ⟨hlt, -⟩
    exact hlt
  have hfrom : (h.laptops ++ [Pointers.LaptopObj.zero])[laptop]? = some obj := by
    rw [List.getElem?_append_left hlt, hobj]
  simp [Pointers.deepCopy, Pointers.Heap.newLaptop, Pointers.copierCopy, hfrom,
    Pointers.getElem?_set_length]

/-- At the time of the copy, the laptop behind the pointer `deepCopy` returns has the value of
the original, which is what the value-level `deepCopy` returns. -/
theorem Pointers.load_deepCopy (h : Pointers.Heap) (laptop : Pointers.Addr)
    (obj : Pointers.LaptopObj) (hobj : h.laptops[laptop]? = some obj) :
    (Pointers.deepCopy h laptop).2.load h.laptops.length = h.load laptop := by
  rw [Pointers.deepCopy_shares_elements h laptop obj hobj]
  simp [Pointers.Heap.load, hobj]

/-- C12: a laptop `G` with one GPU is saved and then read with `Find`; the record `Find`
returned is equal to `G`. After `r.Gpus[0].Name = "MutGPU"` on that returned record, the
next `Find` of the same id returns a laptop whose GPU is named `MutGPU`; the same happens
after the assignment through the record that was passed to `Save`. The copy shares the GPU
objects with the stored record. An assignment to a field of the returned laptop object
itself (`r.Name`) does not reach the store. -/
theorem Pointers.Find_returns_mutated_gpu :
    (Pointers.InMemoryLaptopStore.Save Pointers.heapG Pointers.NewInMemoryLaptopStore 0).1
        = none ∧
      (Pointers.InMemoryLaptopStore.Find Pointers.savedG.1 Pointers.savedG.2 "G").1
        = .ok (some 2) ∧
      Pointers.foundG.load 2 = some Pointers.laptopG ∧
      (Pointers.InMemoryLaptopStore.Find (Pointers.foundG.setGpuName 2 0 "MutGPU")
          Pointers.savedG.2 "G").1 = .ok (some 3) ∧
      (Pointers.InMemoryLaptopStore.Find (Pointers.foundG.setGpuName 2 0 "MutGPU")
          Pointers.savedG.2 "G").2.load 3
        = some { Pointers.laptopG with
            Gpus := [{ Pointers.exampleGPU with Name := "MutGPU" }] } ∧
      (Pointers.InMemoryLaptopStore.Find (Pointers.savedG.1.setGpuName 0 0 "MutGPU")
          Pointers.savedG.2 "G").2.load 2
        = some { Pointers.laptopG with
            Gpus := [{ Pointers.exampleGPU with Name := "MutGPU" }] } ∧
      (Pointers.foundG.load 2).map (fun laptop => laptop.Gpus.map (fun gpu => gpu.Name))
        = some ["RTX 2060"] ∧
      ((Pointers.InMemoryLaptopStore.Find (Pointers.foundG.setGpuName 2 0 "MutGPU")
          Pointers.savedG.2 "G").2.load 3).map
            (fun laptop => laptop.Gpus.map (fun gpu => gpu.Name))
        = some ["MutGPU"] ∧
      (Pointers.InMemoryLaptopStore.Find (Pointers.foundG.setName 2 "Renamed")
          Pointers.savedG.2 "G").2.load 3 = some Pointers.laptopG := by
  refine ⟨rfl, rfl, rfl, rfl, rfl, rfl, rfl, rfl, rfl⟩

end Anthros
